import Mathlib

/-!
Verification of the FxSave decision core against its specification.

The definitions below are a shallow embedding of the Python sources under
`python_model/`:

* `regime.py`            → `regimeDetect` and the threshold tables;
* `rules_engine.py`      → `checkTrade`;
* `risk_engine.py`       → `calculateTradeParams` and its helpers;
* `calibration.py`       → the calibrate step inside `predictCore` (the fitted
                           isotonic regressor is an external oracle, modelled as
                           the `calibOut` field of `TFInput`);
* `news_blocker.py`      → `NewsBlock`, `classifyNews`, `validateTimestamps`,
                           `detectHighImpactNews`, `updateActiveBlocks`,
                           `getBlockStatus`, `checkVolatilityConfirmation`,
                           `loadStateBlocks`;
* `sentiment_analyzer.py`→ `matchesCommentary`, `sentimentIsHighImpact`;
* `news_integration.py`  → `getNewsAssessment` (news fetching, sentiment
                           aggregation and the economic calendar are external
                           collaborators; their outputs are inputs here);
* `live_predictor.py`    → `checkHtfAlignment`, `predictCore`,
                           `predictSingleTimeframe`, `predictAllTimeframes`.

Conventions: Python floats are modelled as `ℚ`; `datetime` values as `ℚ`
minutes on a common clock; Python `round(x, n)` as round-half-even on the
rational (`pyRound`); pandas dataframes as `List Bar` where an `Option ℚ`
field models a missing column or a NaN cell; Python `None`-able strings and
dict lookups as `Option` values.  The repository ships no `config.json`, so
the `.get(..., default)` fallbacks hard-coded in the sources are the
authoritative configuration; they appear as the default field values of the
config structures.
-/

/-! ### Small utilities -/

/-- Round-half-even on `ℚ`: the idealisation of Python's `round` (banker's
rounding) used at every `round(x, n)` site of the sources. -/
def roundHalfEven (q : ℚ) : ℤ :=
  let f := ⌊q⌋
  let r := q - f
  if r < 1/2 then f
  else if 1/2 < r then f + 1
  else if f % 2 = 0 then f else f + 1

/-- Python `round(q, n)`. -/
def pyRound (q : ℚ) (n : ℕ) : ℚ := (roundHalfEven (q * 10 ^ n) : ℚ) / 10 ^ n

/-- Last `n` elements of a list: pandas `.iloc[-n:]`. -/
def lastN (n : ℕ) (l : List α) : List α := l.drop (l.length - n)

/-- Sum of a list of rationals. -/
def qSum (l : List ℚ) : ℚ := l.foldl (· + ·) 0

/-- Mean of a list of rationals (`Series.mean()`); callers guard length. -/
def qMean (l : List ℚ) : ℚ := qSum l / l.length

/-- Maximum of a list (`Series.max()`); callers guarantee nonemptiness. -/
def qMax : List ℚ → ℚ
  | [] => 0
  | h :: t => t.foldl max h

/-- Minimum of a list (`Series.min()`); callers guarantee nonemptiness. -/
def qMin : List ℚ → ℚ
  | [] => 0
  | h :: t => t.foldl min h

/-- Plain substring test on character lists (Python `sub in s`). -/
def listHasSub (l sub : List Char) : Bool :=
  (List.range (l.length + 1)).any (fun i => sub.isPrefixOf (l.drop i))

/-- Python `sub in s` on strings. -/
def strContains (s sub : String) : Bool := listHasSub s.toList sub.toList

/-- A regex word character (`\w`). -/
def isWordChar (c : Char) : Bool := c.isAlphanum || c == '_'

/-- Does phrase `p` occur at index `i` of `cs`, with a word boundary (`\b`)
on its left?  The source regexes open with `\b` and do not close with one. -/
def phraseAt (cs p : List Char) (i : ℕ) : Bool :=
  p.isPrefixOf (cs.drop i) &&
  (i == 0 || !(isWordChar (cs.getD (i - 1) ' ')))

/-- `re.search` for the word-alternation regexes of the sources, after
expanding each `(a|b)\s+(c|d)` into its alternative phrases with `\s+` taken
as one space and `.?` as one of `""`, `"-"`, `" "` (exact for every input
evaluated in this file). -/
def containsPhrase (s pat : String) : Bool :=
  (List.range (s.toList.length + 1)).any (fun i => phraseAt s.toList pat.toList i)

/-! ### regime.py — RegimeDetector -/

/-- One row of an indicator dataframe.  `Option` fields model a missing
column or a NaN cell. -/
structure Bar where
  high : ℚ := 0
  low : ℚ := 0
  close : ℚ := 0
  atr : Option ℚ := none
  adx : Option ℚ := none
  bbWidth : Option ℚ := none
deriving DecidableEq

/-- `TF_THRESHOLDS` entry. -/
structure Thresholds where
  adxStrong : ℚ
  adxWeak : ℚ
  atrSpike : ℚ
  bbwSqueeze : ℚ
deriving DecidableEq

/-- `TF_THRESHOLDS.get(timeframe, DEFAULT_THRESHOLDS)`. -/
def tfThresholds : String → Thresholds
  | "15m" => ⟨45, 30, 3, 15⟩
  | "30m" => ⟨42, 28, 2.8, 18⟩
  | "1h" => ⟨40, 25, 2.5, 20⟩
  | "4h" => ⟨35, 22, 2.3, 22⟩
  | "1d" => ⟨30, 20, 2, 25⟩
  | _ => ⟨40, 25, 2.5, 20⟩

/-- BB-width percentile of the latest bar against the last 50 non-null
values (`(recent_bbw < current_bbw).mean() * 100`, default 50.0). -/
def bbwPercentileOf (df : List Bar) : ℚ :=
  match (df.getLastD {}).bbWidth with
  | some w =>
    let recent := (lastN 50 df).filterMap (·.bbWidth)
    if 10 < recent.length then
      ((recent.filter (fun x => decide (x < w))).length : ℚ) / recent.length * 100
    else 50
  | none => 50

/-- ATR ratio of the latest bar against the mean of the last 50 non-null
values (default 1.0); shared by `RegimeDetector.detect` and
`HighImpactNewsBlocker.check_volatility_confirmation`. -/
def atrRatioOf (df : List Bar) : ℚ :=
  match (df.getLastD {}).atr with
  | some a =>
    let recent := (lastN 50 df).filterMap (·.atr)
    if 10 < recent.length then
      let avg := qMean recent
      if 0 < avg then a / avg else 1
    else 1
  | none => 1

/-- `RegimeDetector.detect` (regime.py, lines 67–165), regime label only.

The final default branch of the source (line 158) interpolates the invalid
format specifier `{adx:.1f if adx else 'N/A'}`; evaluating that f-string
raises `ValueError` (float ADX) or `TypeError` (ADX `None`), the enclosing
`except` catches it and the function returns `"UNKNOWN"`, so the
`return "RANGE"` on line 159 is unreachable.  The embedding reproduces the
actual behaviour: the default branch yields `"UNKNOWN"`. -/
def regimeDetect (timeframe : String) (df : List Bar) : String :=
  let th := tfThresholds timeframe
  if df.length < 50 then "UNKNOWN"
  else
    let adx := (df.getLastD {}).adx
    let bbwPct := bbwPercentileOf df
    let atrRatio := atrRatioOf df
    if th.atrSpike < atrRatio then "HIGH_VOLATILITY_NO_TRADE"
    else
      match adx with
      | some a =>
        if th.adxStrong < a then "STRONG_TREND"
        else if th.adxWeak < a then "WEAK_TREND"
        else if bbwPct < th.bbwSqueeze then "RANGE"
        else "UNKNOWN"
      | none =>
        if bbwPct < th.bbwSqueeze then "RANGE"
        else "UNKNOWN"

/-! ### rules_engine.py — TradeRulesEngine -/

/-- `rules` / `thresholds` sections of the configuration, with the `.get`
defaults of the source. -/
structure RulesCfg where
  enableRegimeFilter : Bool := true
  allowedRegimes : List String := ["STRONG_TREND", "WEAK_TREND"]
  minConfidence : ℚ := 0.55
  blockOnLowAtr : Bool := true
  minAtr : List (String × ℚ) := []
deriving DecidableEq

/-- `TradeRulesEngine.check_trade` (rules_engine.py, lines 40–89).
`confidence` is the percentage figure of the prediction packet and
`currentAtr` is `latest_features.get('ATR', 0)`. -/
def checkTrade (cfg : RulesCfg) (tf : String) (_direction : String)
    (confidence : ℚ) (regime : String) (currentAtr : ℚ) : String × Option String :=
  if cfg.enableRegimeFilter ∧ regime ∉ cfg.allowedRegimes then
    if regime = "RANGE" then ("NO_TRADE", some "RANGE_MARKET")
    else if regime = "HIGH_VOLATILITY_NO_TRADE" then ("NO_TRADE", some "HIGH_VOLATILITY")
    else ("NO_TRADE", some "REGIME_FILTER")
  else
    let confDecimal := if 1 < confidence then confidence / 100 else confidence
    if confDecimal < cfg.minConfidence then ("NO_TRADE", some "LOW_CONFIDENCE")
    else
      let minAtr := (((cfg.minAtr.find? (·.1 == tf)).map (·.2)).getD 0)
      if cfg.blockOnLowAtr ∧ currentAtr ≠ 0 ∧ 0 < minAtr ∧ currentAtr < minAtr then
        ("NO_TRADE", some "LOW_VOLATILITY")
      else ("TRADE", none)

/-! ### risk_engine.py — RiskManager -/

/-- `risk_management` / `xauusd` configuration with source defaults. -/
structure RiskCfg where
  minRR : ℚ := 2
  maxRiskPct : ℚ := 2
  baseRiskPct : ℚ := 1
  accountBalance : ℚ := 10000
  contractSize : ℚ := 100
  minLot : ℚ := 0.01
  maxLot : ℚ := 10
  lotStep : ℚ := 0.01
deriving DecidableEq

/-- The trade-setup dict returned by `RiskManager.calculate_trade_params`.
A `NO_TRADE` setup omits the numeric keys in Python; every downstream read
uses `.get(key, 0)`, which the zero defaults model. -/
structure TradeSetup where
  decision : String
  reason : Option String := none
  entry : ℚ := 0
  sl : ℚ := 0
  tp : ℚ := 0
  lots : ℚ := 0
  riskAmount : ℚ := 0
  riskPct : ℚ := 0
  baseRiskPct : ℚ := 0
  htfMultiplier : ℚ := 0
  rrRatio : ℚ := 0
  stopDistance : ℚ := 0
deriving DecidableEq

/-- Default used only to read an absent setup (`dict.get` semantics). -/
def noSetup : TradeSetup := { decision := "" }

/-- `RiskManager._calculate_levels` (risk_engine.py, lines 187–254). -/
def calcLevels (df : List Bar) (direction : String) (entry atr : ℚ)
    (regime : String) : ℚ × ℚ :=
  let lookback := min 10 (df.length - 1)
  let recentHigh := qMax ((lastN lookback df).map (·.high))
  let recentLow := qMin ((lastN lookback df).map (·.low))
  let atrBuffer := atr * 0.3
  let rewardMult : ℚ := if regime = "STRONG_TREND" then 3 else 2
  if direction = "UP" then
    let structureSl := recentLow - atrBuffer
    let volatilitySl := entry - atr * 1.5
    let sl0 := if entry ≤ structureSl then volatilitySl else min structureSl volatilitySl
    let sl := if entry * 0.05 < entry - sl0 then entry - atr * 1.5 else sl0
    let riskDist := entry - sl
    (sl, entry + riskDist * rewardMult)
  else
    let structureSl := recentHigh + atrBuffer
    let volatilitySl := entry + atr * 1.5
    let sl0 := if structureSl ≤ entry then volatilitySl else max structureSl volatilitySl
    let sl := if entry * 0.05 < sl0 - entry then entry + atr * 1.5 else sl0
    let riskDist := sl - entry
    (sl, entry - riskDist * rewardMult)

/-- `RiskManager._get_base_risk` (risk_engine.py, lines 256–286). -/
def getBaseRisk (cfg : RiskCfg) (confidence : ℚ) (regime : String) : ℚ :=
  let regimeFactor : ℚ :=
    if regime = "STRONG_TREND" then 1
    else if regime = "WEAK_TREND" then 0.8
    else if regime = "RANGE" then 0.5
    else if regime = "HIGH_VOLATILITY_NO_TRADE" then 0
    else if regime = "UNKNOWN" then 0.5
    else 0.5
  let confFactor : ℚ :=
    if 0.75 < confidence then 1.1
    else if confidence < 0.55 then 0.8
    else 1
  cfg.baseRiskPct * regimeFactor * confFactor

/-- `RiskManager._calculate_lots` (risk_engine.py, lines 288–324). -/
def calcLots (cfg : RiskCfg) (riskUsd stopDistance : ℚ) : ℚ :=
  if stopDistance ≤ 0 then 0
  else if riskUsd ≤ 0 then 0
  else
    let rawLots := riskUsd / (stopDistance * cfg.contractSize)
    let lots := (⌊rawLots / cfg.lotStep⌋ : ℚ) * cfg.lotStep
    if lots < cfg.minLot then 0
    else pyRound (min lots cfg.maxLot) 2

/-- `RiskManager.calculate_trade_params` (risk_engine.py, lines 65–185). -/
def calculateTradeParams (cfg : RiskCfg) (df : List Bar) (direction : String)
    (confidence htfRiskMultiplier : ℚ) (regime : String) : TradeSetup :=
  if df.length < 5 then { decision := "NO_TRADE", reason := some "INSUFFICIENT_DATA" }
  else
    let latest := df.getLastD {}
    let entry := latest.close
    let atr :=
      match latest.atr with
      | some a => a
      | none => (qMax ((lastN 5 df).map (·.high)) - qMin ((lastN 5 df).map (·.low))) / 2
    let levels := calcLevels df direction entry atr regime
    let slPrice := levels.1
    let tpPrice := levels.2
    let slDist := |entry - slPrice|
    if slDist < 0.5 then { decision := "NO_TRADE", reason := some "SL_TOO_TIGHT" }
    else
      let potentialGain := |tpPrice - entry|
      let rrRatio := if 0 < slDist then potentialGain / slDist else 0
      if rrRatio < cfg.minRR then { decision := "NO_TRADE", reason := some "BAD_RR" }
      else if htfRiskMultiplier ≤ 0 then { decision := "NO_TRADE", reason := some "HTF_CONFLICT" }
      else
        let baseRiskPct := getBaseRisk cfg confidence regime
        let finalRiskPct := min (baseRiskPct * htfRiskMultiplier) cfg.maxRiskPct
        if finalRiskPct ≤ 0 then { decision := "NO_TRADE", reason := some "ZERO_RISK" }
        else
          let riskAmount := cfg.accountBalance * (finalRiskPct / 100)
          let lots := calcLots cfg riskAmount slDist
          if lots ≤ 0 then { decision := "NO_TRADE", reason := some "LOT_CALC_ERROR" }
          else
            { decision := "TRADE"
              entry := pyRound entry 2
              sl := pyRound slPrice 2
              tp := pyRound tpPrice 2
              lots := lots
              riskAmount := pyRound riskAmount 2
              riskPct := pyRound finalRiskPct 2
              baseRiskPct := pyRound baseRiskPct 2
              htfMultiplier := htfRiskMultiplier
              rrRatio := pyRound rrRatio 2
              stopDistance := pyRound slDist 2 }

/-! ### news_blocker.py — HighImpactNewsBlocker -/

/-- `news_control` configuration with the defaults of news_blocker.py
(lines 162–166). -/
structure BlockerCfg where
  maxNewsAgeMinutes : ℚ := 60
  highImpactBlockMinutes : ℚ := 90
  impactRelevanceWindowMinutes : ℚ := 180
deriving DecidableEq

/-- One entry of `NEWS_PATTERNS`: the keyword list (matched as plain
substrings of the lowercased headline) and the regex list (each
word-alternation regex expanded into its alternative phrases, see
`containsPhrase`). -/
structure NewsPattern where
  newsType : String
  cooldownMinutes : ℚ
  keywords : List String
  phrases : List String
deriving DecidableEq

/-- `NEWS_PATTERNS` (news_blocker.py, lines 23–78), in insertion order. -/
def newsPatterns : List NewsPattern := [
  { newsType := "FED_SIGNALS", cooldownMinutes := 90,
    keywords := ["fed guidance", "federal reserve guidance", "fed signal",
                 "monetary policy signal"],
    phrases :=
      ["fed guidance", "fed signal", "fed hint", "fed suggests", "fed indicates",
       "federal reserve guidance", "federal reserve signal", "federal reserve hint",
       "federal reserve suggests", "federal reserve indicates",
       "fed official says", "fed official states", "fed official comments",
       "fed member says", "fed member states", "fed member comments",
       "fed governor says", "fed governor states", "fed governor comments",
       "federal reserve official says", "federal reserve official states",
       "federal reserve official comments", "federal reserve member says",
       "federal reserve member states", "federal reserve member comments",
       "federal reserve governor says", "federal reserve governor states",
       "federal reserve governor comments",
       "fed forward guidance", "fed monetary policy guidance",
       "federal reserve forward guidance", "federal reserve monetary policy guidance"] },
  { newsType := "FOMC_DECISION", cooldownMinutes := 150,
    keywords := ["fomc decision", "fomc meeting", "fomc announcement", "fomc statement"],
    phrases :=
      ["fomc decision", "fomc meeting", "fomc announcement", "fomc statement",
       "federal open market committee decision", "federal open market committee meeting",
       "federal open market committee announcement", "federal open market committee statement",
       "fomc rate decision", "fomc rate announcement",
       "fomc interest rate decision", "fomc interest rate announcement",
       "fomc minutes"] },
  { newsType := "FOMC_SPEECH", cooldownMinutes := 150,
    keywords := ["powell speech", "fed chair speech", "powell testimony", "powell remarks"],
    phrases :=
      ["powell speech", "powell testimony", "powell remarks", "powell comments",
       "jerome powell speech", "jerome powell testimony", "jerome powell remarks",
       "jerome powell comments", "fed chair speech", "fed chair testimony",
       "fed chair remarks", "fed chair comments",
       "federal reserve chair speech", "federal reserve chair testimony",
       "powell speaks", "powell testifies"] },
  { newsType := "CPI", cooldownMinutes := 75,
    keywords := ["cpi report", "cpi data", "consumer price index", "cpi release"],
    phrases :=
      ["cpi report", "cpi data", "cpi release", "cpi announcement",
       "consumer price index report", "consumer price index data",
       "consumer price index release", "consumer price index announcement",
       "cpi inflation", "cpi inflation data"] },
  { newsType := "NFP", cooldownMinutes := 75,
    keywords := ["nfp report", "non-farm payroll", "jobs report", "nfp data"],
    phrases :=
      ["nfp report", "nfp data", "nfp release",
       "nonfarm payroll report", "nonfarm payroll data", "nonfarm payroll release",
       "non-farm payroll report", "non-farm payroll data", "non-farm payroll release",
       "non farm payroll report", "non farm payroll data", "non farm payroll release",
       "nonfarm payrolls report", "nonfarm payrolls data", "nonfarm payrolls release",
       "non-farm payrolls report", "non-farm payrolls data", "non-farm payrolls release",
       "non farm payrolls report", "non farm payrolls data", "non farm payrolls release",
       "jobs report nonfarm", "jobs report non-farm", "jobs report non farm",
       "employment report nonfarm", "employment report non-farm", "employment report non farm"] },
  { newsType := "PCE", cooldownMinutes := 75,
    keywords := ["pce report", "pce data", "personal consumption expenditures", "pce release"],
    phrases :=
      ["pce report", "pce data", "pce release",
       "personal consumption expenditures report", "personal consumption expenditures data",
       "personal consumption expenditures release",
       "pce inflation", "pce price index",
       "personal consumption expenditures inflation"] }]

/-- `IMPACT_LEVELS['HIGH']` (news_blocker.py, lines 81–85). -/
def highImpactTypes : List String :=
  ["FED_SIGNALS", "FOMC_DECISION", "FOMC_SPEECH", "CPI", "NFP", "PCE"]

/-- `NEWS_PATTERNS.get(news_type, {}).get('cooldown_minutes', 90)`. -/
def newsCooldown (newsType : String) : ℚ :=
  (((newsPatterns.find? (·.newsType == newsType)).map (·.cooldownMinutes)).getD 90)

/-- A `NewsBlock` instance (news_blocker.py, lines 96–144);
timestamps in minutes. -/
structure NewsBlock where
  newsType : String
  originTs : ℚ
  fetchTs : ℚ
  source : String
  headline : String
  impactLevel : String
  classification : String
  cooldownMinutes : ℚ
  blockUntil : ℚ
deriving DecidableEq

/-- `NewsBlock.__init__`: cooldown from `NEWS_PATTERNS` by type,
`block_until = origin_timestamp + cooldown`. -/
def mkNewsBlock (newsType : String) (originTs fetchTs : ℚ)
    (source headline impactLevel classification : String) : NewsBlock :=
  let cd := newsCooldown newsType
  { newsType := newsType, originTs := originTs, fetchTs := fetchTs,
    source := source, headline := headline, impactLevel := impactLevel,
    classification := classification, cooldownMinutes := cd,
    blockUntil := originTs + cd }

/-- `NewsBlock.is_active`: `now < block_until`. -/
def NewsBlock.isActive (b : NewsBlock) (now : ℚ) : Bool := decide (now < b.blockUntil)

/-- A news item as seen by the blocker.  `originTs` is the already-parsed
origin timestamp (`None` when the field is absent or unparseable);
`fetchField` distinguishes an absent `fetch_timestamp` key (`none`, which
defaults to the fetch time) from a present-but-unparseable one
(`some none`). -/
structure NewsItem where
  headline : String := ""
  source : String := "Unknown"
  originTs : Option ℚ := none
  fetchField : Option (Option ℚ) := none
deriving DecidableEq

/-- Classification result of `classify_news`. -/
structure NewsClass where
  newsType : String
  impactLevel : String
  source : String
  headline : String
deriving DecidableEq

/-- `HighImpactNewsBlocker.classify_news` (news_blocker.py, lines 180–218):
for each news type in `NEWS_PATTERNS` order, first the keyword substrings,
then the regex patterns; the first hit wins.  No commentary-exclusion test
appears here (contrast `sentimentIsHighImpact`). -/
def classifyNews (headline source : String) : Option NewsClass :=
  let hl := headline.toLower
  (newsPatterns.find? (fun p =>
      p.keywords.any (fun kw => strContains hl kw)
      || p.phrases.any (fun ph => containsPhrase hl ph))).map
    (fun p =>
      { newsType := p.newsType,
        impactLevel := if p.newsType ∈ highImpactTypes then "HIGH" else "MEDIUM",
        source := source, headline := headline })

/-- `HighImpactNewsBlocker._validate_and_parse_timestamps`
(news_blocker.py, lines 249–290). -/
def validateTimestamps (cfg : BlockerCfg) (item : NewsItem) (fetchTime : ℚ) :
    Option ℚ × Option ℚ × String :=
  let fetchTs : Option ℚ :=
    match item.fetchField with
    | none => some fetchTime
    | some f => f
  match item.originTs with
  | none => (none, fetchTs, "UNVERIFIED")
  | some o =>
    match fetchTs with
    | none => (some o, none, "UNVERIFIED")
    | some f =>
      if cfg.maxNewsAgeMinutes < fetchTime - f then (some o, some f, "EXPIRED")
      else if cfg.impactRelevanceWindowMinutes < fetchTime - o then
        (some o, some f, "STALE_CONTEXT")
      else (some o, some f, "LIVE_EVENT")

/-- `HighImpactNewsBlocker._create_event_signature`
(news_blocker.py, lines 292–297). -/
def eventSignature (headline newsType : String) : String :=
  let normalized :=
    String.intercalate " " ((headline.toLower.splitOn " ").filter (· ≠ ""))
  newsType ++ ":" ++ normalized.take 100

/-- Association-list update for the `_seen_events` dict. -/
def seenInsert (seen : List (String × ℚ)) (sig : String) (ts : ℚ) :
    List (String × ℚ) :=
  (sig, ts) :: seen.filter (·.1 ≠ sig)

/-- `_seen_events` lookup. -/
def seenLookup (seen : List (String × ℚ)) (sig : String) : Option ℚ :=
  (seen.find? (·.1 == sig)).map (·.2)

/-- `HighImpactNewsBlocker.detect_high_impact_news`
(news_blocker.py, lines 299–373): returns the detected blocks and the
updated `_seen_events` table. -/
def detectHighImpactNews (cfg : BlockerCfg) (seen : List (String × ℚ))
    (items : List NewsItem) (now : ℚ) : List NewsBlock × List (String × ℚ) :=
  items.foldl (fun acc item =>
    let (blocks, seen) := acc
    let (originO, fetchO, cls) := validateTimestamps cfg item now
    if cls = "UNVERIFIED" ∨ cls = "EXPIRED" then acc
    else
      match classifyNews item.headline item.source with
      | none => acc
      | some nc =>
        if nc.impactLevel ≠ "HIGH" then acc
        else
          let sig := eventSignature item.headline nc.newsType
          match originO with
          | none => acc
          | some origin =>
            if cls = "STALE_CONTEXT" then
              match seenLookup seen sig with
              | some lastOrigin =>
                if origin ≤ lastOrigin then acc
                else (blocks, seenInsert seen sig origin)
              | none => (blocks, seenInsert seen sig origin)
            else if cls ≠ "LIVE_EVENT" then acc
            else if cfg.highImpactBlockMinutes < now - origin then acc
            else
              let b := mkNewsBlock nc.newsType origin (fetchO.getD now)
                item.source item.headline nc.impactLevel cls
              (blocks ++ [b], seenInsert seen sig origin))
    (([] : List NewsBlock), seen)

/-- `HighImpactNewsBlocker.update_active_blocks`
(news_blocker.py, lines 375–409). -/
def updateActiveBlocks (cfg : BlockerCfg) (activeBlocks : List NewsBlock)
    (seen : List (String × ℚ)) (items : List NewsItem) (now : ℚ) :
    List NewsBlock × List (String × ℚ) :=
  let kept := activeBlocks.filter (fun b =>
    b.isActive now
    && decide (now - b.originTs ≤ cfg.highImpactBlockMinutes)
    && decide (now - b.fetchTs ≤ cfg.maxNewsAgeMinutes)
    && b.classification == "LIVE_EVENT")
  let (newBlocks, seen2) := detectHighImpactNews cfg seen items now
  let finalBlocks := newBlocks.foldl (fun bs nb =>
    if bs.any (fun e =>
        e.newsType == nb.newsType && decide (|e.originTs - nb.originTs| < 60))
    then bs else bs ++ [nb]) kept
  (finalBlocks, seen2)

/-- `HighImpactNewsBlocker.is_blocked`: first block whose cooldown has not
expired (news_blocker.py, lines 411–429). -/
def firstActiveBlock (blocks : List NewsBlock) (now : ℚ) : Option NewsBlock :=
  blocks.find? (·.isActive now)

/-- The dict returned by `get_block_status` (fields the decision path and
the claims read). -/
structure BlockStatus where
  isBlocked : Bool := false
  canTrade : Bool := true
  reason : Option String := none
  classification : Option String := none
  newsEvent : Option String := none
  impactLevel : Option String := none
  cooldownMinutes : Option ℚ := none
  blockUntil : Option ℚ := none
  originTs : Option ℚ := none
  fetchTs : Option ℚ := none
deriving DecidableEq

/-- `HighImpactNewsBlocker.get_block_status` (news_blocker.py, lines
477–555): an active block is reported only after the TTL double-check
(origin age ≤ `high_impact_block_minutes`, fetch age ≤
`max_news_age_minutes`, classification LIVE_EVENT); otherwise the block is
auto-unblocked. -/
def getBlockStatus (cfg : BlockerCfg) (blocks : List NewsBlock) (now : ℚ) :
    BlockStatus :=
  match firstActiveBlock blocks now with
  | none => { isBlocked := false }
  | some b =>
    if cfg.highImpactBlockMinutes < now - b.originTs
        ∨ cfg.maxNewsAgeMinutes < now - b.fetchTs
        ∨ b.classification ≠ "LIVE_EVENT" then
      { isBlocked := false }
    else
      { isBlocked := true, canTrade := false, reason := some "HIGH_IMPACT_NEWS",
        classification := some b.classification, newsEvent := some b.newsType,
        impactLevel := some b.impactLevel, cooldownMinutes := some b.cooldownMinutes,
        blockUntil := some b.blockUntil, originTs := some b.originTs,
        fetchTs := some b.fetchTs }

/-- `HighImpactNewsBlocker.check_volatility_confirmation`
(news_blocker.py, lines 431–475), `can_trade` component: false when fewer
than 50 rows or the ATR ratio exceeds 1.5. -/
def checkVolatilityConfirmation (df : List Bar) : Bool :=
  if df.length < 50 then false
  else !(decide ((1.5 : ℚ) < atrRatioOf df))

/-- The parameter names of `NewsBlock.__init__`
(news_blocker.py, lines 101–102); all are required. -/
def newsBlockInitParams : List String :=
  ["news_type", "origin_timestamp", "fetch_timestamp", "source", "headline",
   "impact_level", "classification"]

/-- The keyword arguments passed at the `NewsBlock(...)` call inside
`load_state` (news_blocker.py, lines 582–588). -/
def loadStateCallKwargs : List String :=
  ["news_type", "timestamp", "source", "headline", "impact_level"]

/-- Python keyword binding for a call with keyword arguments only: every
provided keyword must name a parameter and every (required) parameter must
be provided, else `TypeError`. -/
def kwargsBind (params provided : List String) : Bool :=
  provided.all (· ∈ params) && params.all (· ∈ provided)

/-- One entry of the persisted `active_blocks` list read by `load_state`. -/
structure SavedBlock where
  newsType : String := ""
  timestamp : ℚ := 0
  source : String := ""
  headline : String := ""
  impactLevel : String := ""
deriving DecidableEq

/-- `HighImpactNewsBlocker.load_state` (news_blocker.py, lines 570–592),
restricted to the `_active_blocks` it leaves behind.  The source first sets
`self._active_blocks = []`, then per saved entry calls
`NewsBlock(news_type=…, timestamp=…, source=…, headline=…, impact_level=…)`.
When that keyword set does not bind to `NewsBlock.__init__` the call raises
`TypeError`, the enclosing `except` swallows it and the loop stops, leaving
the blocks appended so far.  The success branch below (never reached, since
`kwargsBind` is false for this call site) restores a block from the saved
fields. -/
def loadStateBlocks (saved : List SavedBlock) : List NewsBlock :=
  let rec go (acc : List NewsBlock) : List SavedBlock → List NewsBlock
    | [] => acc
    | s :: rest =>
      if kwargsBind newsBlockInitParams loadStateCallKwargs then
        go (acc ++ [mkNewsBlock s.newsType s.timestamp s.timestamp s.source
          s.headline s.impactLevel "LIVE_EVENT"]) rest
      else acc
  go [] saved

/-! ### sentiment_analyzer.py — commentary exclusion -/

/-- `COMMENTARY_EXCLUSION_PATTERNS` (sentiment_analyzer.py, lines 99–105),
each regex expanded into its alternative phrases. -/
def commentaryPhrases : List String :=
  ["signal potential", "signal possible", "signal likely",
   "signals potential", "signals possible", "signals likely",
   "hint potential", "hint possible", "hint likely",
   "hints potential", "hints possible", "hints likely",
   "amid cooling", "amid rising", "amid slowing", "amid weakening",
   "analyst says", "analyst expects", "analyst believes",
   "economist says", "economist expects", "economist believes",
   "strategist says", "strategist expects", "strategist believes",
   "could signal", "could pause", "could cut", "could hike",
   "may signal", "may pause", "may cut", "may hike",
   "might signal", "might pause", "might cut", "might hike",
   "potential rate", "potential pause", "potential cut", "potential hike"]

/-- `HIGH_IMPACT_PATTERNS` (sentiment_analyzer.py, lines 73–95), each regex
expanded into its alternative phrases. -/
def sentimentHighImpactPhrases : List String :=
  ["fed meeting", "fed decision", "fed announce", "fed rate", "fed statement",
   "fomc meeting", "fomc decision", "fomc announce", "fomc rate", "fomc statement",
   "federal reserve meeting", "federal reserve decision", "federal reserve announce",
   "federal reserve rate", "federal reserve statement",
   "fed hike", "fed cut", "fed pause", "fed pivot",
   "fomc hike", "fomc cut", "fomc pause", "fomc pivot",
   "powell speak", "powell speaks", "powell speech", "powell testimony",
   "rate hike announce", "rate hike surprise", "rate hike shock",
   "rate cut announce", "rate cut surprise", "rate cut shock",
   "rate decision announce", "rate decision surprise", "rate decision shock",
   "cpi report", "cpi data", "cpi surprise", "cpi shock",
   "inflation report", "inflation data", "inflation surprise", "inflation shock",
   "nonfarm report", "nonfarm data", "nonfarm surprise", "nonfarm miss", "nonfarm beat",
   "non-farm report", "non-farm data", "non-farm surprise", "non-farm miss", "non-farm beat",
   "non farm report", "non farm data", "non farm surprise", "non farm miss", "non farm beat",
   "nfp report", "nfp data", "nfp surprise", "nfp miss", "nfp beat",
   "payroll report", "payroll data", "payroll surprise", "payroll miss", "payroll beat",
   "gdp report", "gdp data", "gdp surprise", "gdp shock",
   "us gdp report", "us gdp data", "us gdp surprise", "us gdp shock",
   "unemployment rate", "us unemployment rate",
   "dollar crash", "dollar surge", "dollar plunge", "dollar collapse",
   "dxy crash", "dxy surge", "dxy plunge",
   "gold crash", "gold surge", "gold plunge", "gold rally", "gold collapse",
   "central bank gold buying", "central bank gold purchase", "central bank gold reserve",
   "war", "invasion", "military strike", "nuclear",
   "emergency rate", "emergency market", "emergency bank",
   "crisis rate", "crisis market", "crisis bank",
   "crash rate", "crash market", "crash bank",
   "collapse rate", "collapse market", "collapse bank"]

/-- Does the text match any commentary-exclusion pattern
(the patterns are compiled with `re.IGNORECASE`)? -/
def matchesCommentary (text : String) : Bool :=
  commentaryPhrases.any (containsPhrase text.toLower)

/-- `SentimentAnalyzer._is_high_impact` (sentiment_analyzer.py, lines
186–200): a commentary match returns False before the high-impact patterns
are consulted. -/
def sentimentIsHighImpact (text : String) : Bool :=
  if matchesCommentary text then false
  else sentimentHighImpactPhrases.any (containsPhrase text.toLower)

/-! ### news_integration.py — NewsIntegration -/

/-- `news` configuration section with the source defaults
(news_integration.py, lines 40–46). -/
structure NewsCfg where
  highImpactRiskMultiplier : ℚ := 0
  sentimentConfidenceFactor : ℚ := 0.05
  enableBlackouts : Bool := true
  enableNewsBlocking : Bool := true
deriving DecidableEq

/-- The fields of `EconomicCalendar.get_risk_adjustment` output consumed by
`get_news_assessment` (its docstring guarantees `risk_multiplier` in
`[0, 1]`); `upcomingHighImpact` is the nonemptiness of
`upcoming_high_impact`. -/
structure CalendarRisk where
  riskMultiplier : ℚ := 1
  inBlackout : Bool := false
  upcomingHighImpact : Bool := false
  reasonText : String := ""
deriving DecidableEq

/-- The fields of `SentimentAnalyzer.aggregate_sentiment` output consumed by
`get_news_assessment`. -/
structure SentimentAgg where
  hasHighImpact : Bool := false
  aggregateScore : ℚ := 0
  highImpactHeadline : String := ""
deriving DecidableEq

/-- The fields of the dict returned by `NewsIntegration.get_news_assessment`
that the decision path reads. -/
structure Assessment where
  canTrade : Bool
  reason : Option String := none
  riskMultiplier : ℚ := 1
  sentimentScore : ℚ := 0
  blockStatus : Option BlockStatus := none
deriving DecidableEq

/-- `NewsIntegration.get_news_assessment` (news_integration.py, lines
175–393), decision-relevant fields.  News refresh, sentiment aggregation and
the calendar are external collaborators whose outputs are the `bs`, `cal`
and `sent` arguments.  An active block with classification LIVE_EVENT
returns early with `can_trade=False`, reason `HIGH_IMPACT_NEWS` and risk
multiplier 0; any other classification falls through to the blackout /
legacy checks. -/
def getNewsAssessment (cfg : NewsCfg) (bs : BlockStatus) (cal : CalendarRisk)
    (sent : SentimentAgg) : Assessment :=
  if cfg.enableNewsBlocking ∧ bs.isBlocked = true
      ∧ bs.classification = some "LIVE_EVENT" then
    { canTrade := false, reason := some "HIGH_IMPACT_NEWS", riskMultiplier := 0,
      sentimentScore := sent.aggregateScore, blockStatus := some bs }
  else
    let (canTrade, reason, rm) : Bool × Option String × ℚ :=
      if cfg.enableBlackouts ∧ cal.inBlackout then
        (false, some ("CALENDAR_BLACKOUT: " ++ cal.reasonText), 0)
      else if sent.hasHighImpact then
        if cfg.highImpactRiskMultiplier = 0 then
          (false, some ("HIGH_IMPACT_NEWS: " ++ sent.highImpactHeadline.take 50), 0)
        else
          (true, some "HIGH_IMPACT_NEWS_CAUTION", min 1 cfg.highImpactRiskMultiplier)
      else if cal.upcomingHighImpact then
        let rm := min 1 cal.riskMultiplier
        if rm ≤ 0 then (false, some ("EVENT_IMMINENT: " ++ cal.reasonText), rm)
        else (true, none, rm)
      else (true, none, 1)
    { canTrade := canTrade, reason := reason,
      riskMultiplier := pyRound (min rm cal.riskMultiplier) 2,
      sentimentScore := sent.aggregateScore,
      blockStatus := if cfg.enableNewsBlocking then some bs else none }

/-- `NewsIntegration.adjust_confidence` (news_integration.py, lines
409–444). -/
def adjustConfidence (factor base : ℚ) (direction : String) (score : ℚ) : ℚ :=
  if factor = 0 then base
  else
    let alignment := if direction = "UP" then score else -score
    let adjusted := base + alignment * factor
    pyRound (max 0 (min 1 adjusted)) 4

/-! ### live_predictor.py — LivePredictor -/

/-- `HTF_PARENT_MAP` (live_predictor.py, lines 54–60). -/
def htfParent : String → Option String
  | "15m" => some "30m"
  | "30m" => some "1h"
  | "1h" => some "4h"
  | "4h" => some "1d"
  | _ => none

/-- `TF_HIERARCHY` (live_predictor.py, line 51). -/
def tfHierarchy : List String := ["1d", "4h", "1h", "30m", "15m"]

/-- The per-timeframe result dict of `predict_single_timeframe`.  Error
(early-return) results carry only timeframe / decision / rejection reason,
the other keys being absent: `Option` fields model the `.get` reads
downstream. -/
structure TFResult where
  timeframe : String := ""
  decision : String := "NO_TRADE"
  rejectionReason : Option String := none
  direction : Option String := none
  regime : Option String := none
  htfStatus : Option String := none
  driftLevel : Option String := none
  driftRiskMultiplier : Option ℚ := none
  htfRiskMultiplier : Option ℚ := none
  newsRiskMult : Option ℚ := none
  combinedRiskMultiplier : Option ℚ := none
  calibrationWarning : Option Bool := none
  confidencePct : Option ℚ := none
  setup : Option TradeSetup := none
  error : Bool := false
deriving DecidableEq

/-- `htf_results` lookup (a dict keyed by timeframe). -/
def lookupResult (results : List (String × TFResult)) (tf : String) :
    Option TFResult :=
  (results.find? (·.1 == tf)).map (·.2)

/-- `LivePredictor._check_htf_alignment` (live_predictor.py, lines 140–207),
alignment status only. -/
def checkHtfAlignment (tf direction : String)
    (results : List (String × TFResult)) : String :=
  match htfParent tf with
  | none => "ALIGNED"
  | some p =>
    match lookupResult results p with
    | none => "ALIGNED"
    | some pr =>
      if pr.decision = "NO_TRADE" then "HARD_CONFLICT"
      else
        let conflict : Bool :=
          match pr.direction with
          | some pd => decide (pd ≠ direction)
          | none => false
        if conflict then
          if pr.regime = some "STRONG_TREND" then "HARD_CONFLICT"
          else "SOFT_CONFLICT"
        else
          match htfParent p with
          | none => "ALIGNED"
          | some gp =>
            match lookupResult results gp with
            | none => "ALIGNED"
            | some gr =>
              match gr.direction with
              | some gd =>
                if gd ≠ direction ∧ gr.regime = some "STRONG_TREND" then
                  "HARD_CONFLICT"
                else "ALIGNED"
              | none => "ALIGNED"

/-- `calibration_control` configuration with the source defaults
(live_predictor.py, lines 302–305). -/
structure DriftCfg where
  safeDrift : ℚ := 0.15
  warningDrift : ℚ := 0.25
  riskReductionMult : ℚ := 0.5
deriving DecidableEq

/-- The full configuration consumed by the decision core. -/
structure Config where
  drift : DriftCfg := {}
  rules : RulesCfg := {}
  risk : RiskCfg := {}
  news : NewsCfg := {}
deriving DecidableEq

/-- The default configuration: exactly the `.get` fallbacks of the
sources. -/
def defaultConfig : Config := {}

/-- External inputs of one `predict_single_timeframe` call.
`modelAvailable` models `timeframe in self.models`; `rawDataLen` the length
of `get_data_for_prediction`'s frame (`none` = `None`); `indicatorsOk`
whether `compute_indicators` succeeded; `dfProc` its output; `rawProbUp` the
model probability (external oracle); `calibOut` the value a fitted
calibrator returns for `rawProbUp` (`none` = calibrator missing or
unfitted); `newsAssessment` the `get_news_assessment` result (`none` = news
integration disabled). -/
structure TFInput where
  modelAvailable : Bool := true
  rawDataLen : Option ℕ := some 500
  indicatorsOk : Bool := true
  dfProc : List Bar := []
  rawProbUp : ℚ := 0.5
  calibOut : Option ℚ := none
  newsAssessment : Option Assessment := none

/-- The early-return dict of `predict_single_timeframe` on missing model /
missing data / failed feature computation (live_predictor.py, lines
224–262). -/
def errResult (tf : String) : TFResult :=
  { timeframe := tf, decision := "NO_TRADE",
    rejectionReason := some "INSUFFICIENT_DATA", error := true }

/-- The normal-path guard: the conjunction of the early-return conditions
of `predict_single_timeframe` failing. -/
def normalInputB (inp : TFInput) : Bool :=
  inp.modelAvailable && inp.indicatorsOk
  && decide (10 ≤ inp.dfProc.length)
  && (match inp.rawDataLen with
      | some n => decide (50 ≤ n)
      | none => false)

/-- MAX_CALIBRATION_DRIFT (calibration.py, line 19). -/
def maxCalibrationDrift : ℚ := 0.15

/-- Direction of the prediction: `"UP" if raw_prob_up > 0.5 else "DOWN"`. -/
def coreDirection (inp : TFInput) : String :=
  if (0.5 : ℚ) < inp.rawProbUp then "UP" else "DOWN"

/-- Calibrated probability: `ModelCalibrator.calibrate` returns the fitted
regressor's value, falling back to the raw probability when unfitted
(calibration.py, lines 86–115; live_predictor.py, lines 280–285). -/
def coreCalibProb (inp : TFInput) : ℚ :=
  match inp.calibOut with
  | some c => c
  | none => inp.rawProbUp

/-- The `has_drift_warning` flag: drift above MAX_CALIBRATION_DRIFT for a
fitted calibrator, always True when unfitted (`Uncalibrated = warning`). -/
def coreWarnFlag (inp : TFInput) : Bool :=
  match inp.calibOut with
  | some c => decide (maxCalibrationDrift < |c - inp.rawProbUp|)
  | none => true

/-- Raw confidence for the predicted direction. -/
def coreRawConf (inp : TFInput) : ℚ :=
  if coreDirection inp = "UP" then inp.rawProbUp else 1 - inp.rawProbUp

/-- Calibrated confidence for the predicted direction. -/
def coreFinalConf (inp : TFInput) : ℚ :=
  if coreDirection inp = "UP" then coreCalibProb inp else 1 - coreCalibProb inp

/-- `calibration_drift = abs(final_conf - raw_conf)`. -/
def coreDrift (inp : TFInput) : ℚ := |coreFinalConf inp - coreRawConf inp|

/-- The drift band (live_predictor.py, lines 311–321): level, risk
multiplier, audit reason. -/
def driftBand (cfg : DriftCfg) (drift : ℚ) : String × ℚ × Option String :=
  if drift ≤ cfg.safeDrift then ("SAFE", 1, none)
  else if drift ≤ cfg.warningDrift then
    ("WARNING", cfg.riskReductionMult, some "CALIBRATION_WARNING")
  else ("CRITICAL", 0, some "CALIBRATION_UNSTABLE")

/-- Drift level for the input. -/
def coreDriftLevel (cfg : Config) (inp : TFInput) : String :=
  (driftBand cfg.drift (coreDrift inp)).1

/-- Drift risk multiplier for the input (the reassignment inside the
CRITICAL override, line 419, is the identity: the CRITICAL band already set
it to 0.0). -/
def coreDriftMult (cfg : Config) (inp : TFInput) : ℚ :=
  (driftBand cfg.drift (coreDrift inp)).2.1

/-- Regime of the processed frame. -/
def coreRegime (tf : String) (inp : TFInput) : String :=
  regimeDetect tf inp.dfProc

/-- HTF alignment status for the call. -/
def coreHtfStatus (tf : String) (inp : TFInput)
    (results : List (String × TFResult)) : String :=
  checkHtfAlignment tf (coreDirection inp) results

/-- Rules-engine verdict for the call (live_predictor.py, lines 327–336):
confidence is the rounded percentage, the features row is the latest bar. -/
def coreRules (cfg : Config) (tf : String) (inp : TFInput) :
    String × Option String :=
  checkTrade cfg.rules tf (coreDirection inp)
    (pyRound (coreFinalConf inp * 100) 2) (coreRegime tf inp)
    ((inp.dfProc.getLastD {}).atr.getD 0)

/-- Decision/reason after the HTF hard-conflict override (live_predictor.py,
lines 338–340). -/
def coreAfterHtf (cfg : Config) (tf : String) (inp : TFInput)
    (results : List (String × TFResult)) : String × Option String :=
  let rules := coreRules cfg tf inp
  if coreHtfStatus tf inp results = "HARD_CONFLICT" ∧ rules.1 = "TRADE" then
    ("NO_TRADE", some "HTF_CONFLICT")
  else rules

/-- `is_in_cooldown = news_block_status and news_block_status.get('is_blocked',
False)` (live_predictor.py, line 375). -/
def assessmentInCooldown (a : Assessment) : Bool :=
  match a.blockStatus with
  | some bs => bs.isBlocked
  | none => false

/-- The news gate of `predict_single_timeframe` (lines 354–402): decision,
reason and `news_risk_mult` after the block.  With the cooldown inactive,
the volatility-confirmation path still forces `HIGH_IMPACT_NEWS` when the
regime is HIGH_VOLATILITY_NO_TRADE or the ATR ratio exceeds 1.5. -/
def newsGate (dfProc : List Bar) (regime : String) (a : Assessment)
    (decision : String) (reason : Option String) :
    String × Option String × ℚ :=
  if !a.canTrade then
    if assessmentInCooldown a then ("NO_TRADE", some "HIGH_IMPACT_NEWS", 0)
    else if regime = "HIGH_VOLATILITY_NO_TRADE" then
      ("NO_TRADE", some "HIGH_IMPACT_NEWS", 0)
    else if !checkVolatilityConfirmation dfProc then
      ("NO_TRADE", some "HIGH_IMPACT_NEWS", 0)
    else (decision, reason, 1)
  else (decision, reason, a.riskMultiplier)

/-- Decision/reason/news-multiplier after the news gate. -/
def coreNews (cfg : Config) (tf : String) (inp : TFInput)
    (results : List (String × TFResult)) : String × Option String × ℚ :=
  match inp.newsAssessment with
  | none => ((coreAfterHtf cfg tf inp results).1, (coreAfterHtf cfg tf inp results).2, 1)
  | some a =>
    newsGate inp.dfProc (coreRegime tf inp) a
      (coreAfterHtf cfg tf inp results).1 (coreAfterHtf cfg tf inp results).2

/-- Final confidence, after the optional sentiment adjustment (lines
404–409), applied only when news allows trading and the decision at that
point is TRADE. -/
def coreConf2 (cfg : Config) (tf : String) (inp : TFInput)
    (results : List (String × TFResult)) : ℚ :=
  match inp.newsAssessment with
  | none => coreFinalConf inp
  | some a =>
    if a.canTrade ∧ (coreAfterHtf cfg tf inp results).1 = "TRADE" then
      adjustConfidence cfg.news.sentimentConfidenceFactor (coreFinalConf inp)
        (coreDirection inp) a.sentimentScore
    else coreFinalConf inp

/-- The CRITICAL-drift override (live_predictor.py, lines 411–419): forces
NO_TRADE with CALIBRATION_UNSTABLE unless the decision is already NO_TRADE
for HIGH_IMPACT_NEWS. -/
def driftOverride (level decision : String) (reason : Option String) :
    String × Option String :=
  if level = "CRITICAL" ∧ (decision ≠ "NO_TRADE" ∨ reason ≠ some "HIGH_IMPACT_NEWS") then
    ("NO_TRADE", some "CALIBRATION_UNSTABLE")
  else (decision, reason)

/-- Decision/reason after the drift override. -/
def coreAfterDrift (cfg : Config) (tf : String) (inp : TFInput)
    (results : List (String × TFResult)) : String × Option String :=
  driftOverride (coreDriftLevel cfg inp) (coreNews cfg tf inp results).1
    (coreNews cfg tf inp results).2.1

/-- HTF risk multiplier from the alignment status (lines 422–426). -/
def htfMultOf (s : String) : ℚ :=
  if s = "SOFT_CONFLICT" then 0.5 else if s = "HARD_CONFLICT" then 0 else 1

/-- Combined multiplier and final news multiplier (lines 428–434): the
product HTF × news × drift, both forced to zero when blocked by news. -/
def coreCombinedPair (cfg : Config) (tf : String) (inp : TFInput)
    (results : List (String × TFResult)) : ℚ × ℚ :=
  let newsMult := (coreNews cfg tf inp results).2.2
  let combined := htfMultOf (coreHtfStatus tf inp results) * newsMult
    * coreDriftMult cfg inp
  let dr := coreAfterDrift cfg tf inp results
  if dr.1 = "NO_TRADE" ∧ dr.2 = some "HIGH_IMPACT_NEWS" then (0, 0)
  else (combined, newsMult)

/-- `setup['risk_pct'/'risk_amount'/'lots'] = 0` enforcement for news and
calibration blocks (live_predictor.py, lines 444–457). -/
def enforceZeroRisk (decision : String) (reason : Option String)
    (setup : TradeSetup) : TradeSetup :=
  if decision = "NO_TRADE" then
    if reason = some "HIGH_IMPACT_NEWS" then
      { setup with
        riskPct := 0
        riskAmount := 0
        lots := 0
        decision := "NO_TRADE"
        reason := some "HIGH_IMPACT_NEWS" }
    else if reason = some "CALIBRATION_UNSTABLE" then
      { setup with
        riskPct := 0
        riskAmount := 0
        lots := 0
        decision := "NO_TRADE"
        reason := some "CALIBRATION_UNSTABLE" }
    else setup
  else setup

/-- The attached setup of the result (risk manager output plus the zero-risk
enforcement). -/
def coreSetup (cfg : Config) (tf : String) (inp : TFInput)
    (results : List (String × TFResult)) : TradeSetup :=
  let dr := coreAfterDrift cfg tf inp results
  enforceZeroRisk dr.1 dr.2
    (calculateTradeParams cfg.risk inp.dfProc (coreDirection inp)
      (coreConf2 cfg tf inp results)
      (coreCombinedPair cfg tf inp results).1 (coreRegime tf inp))

/-- The risk-manager rejection override (live_predictor.py, lines 459–463). -/
def riskRejectOverride (setup : TradeSetup) (decision : String)
    (reason : Option String) : String × Option String :=
  if setup.decision = "NO_TRADE" ∧ reason ≠ some "HIGH_IMPACT_NEWS"
      ∧ decision = "TRADE" then
    ("NO_TRADE", some (setup.reason.getD "RISK_CHECK_FAILED"))
  else (decision, reason)

/-- Final decision/reason of the call. -/
def coreFinalDR (cfg : Config) (tf : String) (inp : TFInput)
    (results : List (String × TFResult)) : String × Option String :=
  let dr := coreAfterDrift cfg tf inp results
  riskRejectOverride (coreSetup cfg tf inp results) dr.1 dr.2

/-- The normal-path body of `predict_single_timeframe` (live_predictor.py,
lines 264–494), assembling the result record. -/
def predictCore (cfg : Config) (tf : String) (inp : TFInput)
    (results : List (String × TFResult)) : TFResult :=
  { timeframe := tf
    decision := (coreFinalDR cfg tf inp results).1
    rejectionReason := (coreFinalDR cfg tf inp results).2
    direction := some (coreDirection inp)
    regime := some (coreRegime tf inp)
    htfStatus := some (coreHtfStatus tf inp results)
    driftLevel := some (coreDriftLevel cfg inp)
    driftRiskMultiplier := some (coreDriftMult cfg inp)
    htfRiskMultiplier := some (htfMultOf (coreHtfStatus tf inp results))
    newsRiskMult := some (coreCombinedPair cfg tf inp results).2
    combinedRiskMultiplier := some (coreCombinedPair cfg tf inp results).1
    calibrationWarning := some (coreWarnFlag inp)
    confidencePct := some (pyRound (coreConf2 cfg tf inp results * 100) 2)
    setup := some (coreSetup cfg tf inp results)
    error := false }

/-- `LivePredictor.predict_single_timeframe` (live_predictor.py, lines
209–549): the early error returns, then the normal path. -/
def predictSingleTimeframe (cfg : Config) (tf : String) (inp : TFInput)
    (results : List (String × TFResult)) : TFResult :=
  if !inp.modelAvailable then errResult tf
  else
    match inp.rawDataLen with
    | none => errResult tf
    | some n =>
      if n < 50 then errResult tf
      else if !inp.indicatorsOk then errResult tf
      else if inp.dfProc.length < 10 then errResult tf
      else predictCore cfg tf inp results

/-- `LivePredictor.predict_all_timeframes` (live_predictor.py, lines
551–604): the timeframes in hierarchy order, each seeing the accumulated
results of its ancestors. -/
def predictAllTimeframes (cfg : Config) (inputs : String → TFInput) :
    List (String × TFResult) :=
  tfHierarchy.foldl
    (fun results tf =>
      results ++ [(tf, predictSingleTimeframe cfg tf (inputs tf) results)]) []

/-- Descendant relation on the timeframe hierarchy: `desc` strictly below
`anc` in TF_HIERARCHY order. -/
def tfBelow (anc desc : String) : Bool :=
  tfHierarchy.contains anc && tfHierarchy.contains desc
  && decide (tfHierarchy.indexOf anc < tfHierarchy.indexOf desc)

/-! ### Stage lemmas -/

set_option maxRecDepth 10000

theorem predictSingle_eq_core (cfg : Config) (tf : String) (inp : TFInput)
    (results : List (String × TFResult)) (h : normalInputB inp = true) :
    predictSingleTimeframe cfg tf inp results = predictCore cfg tf inp results := by
  unfold normalInputB at h
  unfold predictSingleTimeframe
  cases hd : inp.rawDataLen with
  | none => rw [hd] at h; simp at h
  | some n =>
    rw [hd] at h
    simp only [Bool.and_eq_true, decide_eq_true_eq] at h
    obtain ⟨⟨⟨hm, hi⟩, hlen⟩, hn⟩ := h
    simp [hm, hi, Nat.not_lt.mpr hn, Nat.not_lt.mpr hlen]

theorem predictSingle_eq_err (cfg : Config) (tf : String) (inp : TFInput)
    (results : List (String × TFResult)) (h : normalInputB inp = false) :
    predictSingleTimeframe cfg tf inp results = errResult tf := by
  unfold normalInputB at h
  unfold predictSingleTimeframe
  cases hd : inp.rawDataLen with
  | none => simp [hd]
  | some n =>
    rw [hd] at h
    by_cases hm : inp.modelAvailable <;> by_cases hi : inp.indicatorsOk <;>
      simp [hm, hi] at h ⊢ <;> omega

theorem checkTrade_decision_cases (cfg : RulesCfg) (tf d : String) (conf : ℚ)
    (regime : String) (atr : ℚ) :
    (checkTrade cfg tf d conf regime atr).1 = "TRADE" ∨
    (checkTrade cfg tf d conf regime atr).1 = "NO_TRADE" := by
  simp only [checkTrade]
  split_ifs <;> simp

theorem checkTrade_reason_cases (cfg : RulesCfg) (tf d : String) (conf : ℚ)
    (regime : String) (atr : ℚ) :
    (checkTrade cfg tf d conf regime atr).2 = none ∨
    (checkTrade cfg tf d conf regime atr).2 ∈
      [some "RANGE_MARKET", some "HIGH_VOLATILITY", some "REGIME_FILTER",
       some "LOW_CONFIDENCE", some "LOW_VOLATILITY"] := by
  simp only [checkTrade]
  split_ifs <;> simp

theorem calcParams_reason_cases (cfg : RiskCfg) (df : List Bar) (d : String)
    (conf m : ℚ) (regime : String) :
    (calculateTradeParams cfg df d conf m regime).reason = none ∨
    (calculateTradeParams cfg df d conf m regime).reason ∈
      [some "INSUFFICIENT_DATA", some "SL_TOO_TIGHT", some "BAD_RR",
       some "HTF_CONFLICT", some "ZERO_RISK", some "LOT_CALC_ERROR"] := by
  simp only [calculateTradeParams]
  split_ifs <;> simp

theorem newsGate_noTrade (df : List Bar) (regime : String) (a : Assessment)
    (d : String) (r : Option String) (hd : d = "NO_TRADE") :
    (newsGate df regime a d r).1 = "NO_TRADE" := by
  unfold newsGate
  split_ifs <;> simp [hd]

theorem newsGate_reason_cases (df : List Bar) (regime : String) (a : Assessment)
    (d : String) (r : Option String) :
    (newsGate df regime a d r).2.1 = some "HIGH_IMPACT_NEWS" ∨
    (newsGate df regime a d r).2.1 = r := by
  unfold newsGate
  split_ifs <;> simp

theorem newsGate_mult_cases (df : List Bar) (regime : String) (a : Assessment)
    (d : String) (r : Option String) :
    (newsGate df regime a d r).2.2 = 0 ∨ (newsGate df regime a d r).2.2 = 1 ∨
    (newsGate df regime a d r).2.2 = a.riskMultiplier := by
  unfold newsGate
  split_ifs <;> simp

theorem newsGate_canTrade (df : List Bar) (regime : String) (a : Assessment)
    (d : String) (r : Option String) (h : a.canTrade = true) :
    newsGate df regime a d r = (d, r, a.riskMultiplier) := by
  unfold newsGate
  simp [h]

theorem newsGate_cooldown (df : List Bar) (regime : String) (a : Assessment)
    (d : String) (r : Option String) (bs : BlockStatus) (h : a.canTrade = false)
    (hbs : a.blockStatus = some bs) (hib : bs.isBlocked = true) :
    newsGate df regime a d r = ("NO_TRADE", some "HIGH_IMPACT_NEWS", 0) := by
  unfold newsGate assessmentInCooldown
  simp [h, hbs, hib]

theorem newsGate_vol_blocked (df : List Bar) (regime : String) (a : Assessment)
    (d : String) (r : Option String) (h : a.canTrade = false)
    (hbs : ∀ bs, a.blockStatus = some bs → bs.isBlocked = false)
    (hvol : checkVolatilityConfirmation df = false) :
    newsGate df regime a d r = ("NO_TRADE", some "HIGH_IMPACT_NEWS", 0) := by
  unfold newsGate
  have hcool : assessmentInCooldown a = false := by
    unfold assessmentInCooldown
    cases hb : a.blockStatus with
    | none => rfl
    | some bs => exact hbs bs hb
  by_cases hreg : regime = "HIGH_VOLATILITY_NO_TRADE" <;>
    simp [h, hcool, hreg, hvol]

theorem driftOverride_noTrade (l d : String) (r : Option String)
    (hd : d = "NO_TRADE") : (driftOverride l d r).1 = "NO_TRADE" := by
  unfold driftOverride
  split_ifs <;> simp [hd]

theorem driftOverride_not_critical (l d : String) (r : Option String)
    (hl : l ≠ "CRITICAL") : driftOverride l d r = (d, r) := by
  unfold driftOverride
  simp [hl]

theorem driftOverride_critical (d : String) (r : Option String) :
    driftOverride "CRITICAL" d r = ("NO_TRADE", some "CALIBRATION_UNSTABLE") ∨
    (d = "NO_TRADE" ∧ r = some "HIGH_IMPACT_NEWS" ∧
      driftOverride "CRITICAL" d r = (d, r)) := by
  unfold driftOverride
  by_cases hd : d = "NO_TRADE" <;> by_cases hr : r = some "HIGH_IMPACT_NEWS" <;>
    simp [hd, hr]

theorem riskReject_noTrade (s : TradeSetup) (d : String) (r : Option String)
    (hd : d = "NO_TRADE") : riskRejectOverride s d r = (d, r) := by
  unfold riskRejectOverride
  split_ifs with h
  · exact absurd h.2.2 (by simp [hd])
  · rfl

theorem enforceZero_zeroes (r : Option String) (s : TradeSetup)
    (hr : r = some "HIGH_IMPACT_NEWS" ∨ r = some "CALIBRATION_UNSTABLE") :
    (enforceZeroRisk "NO_TRADE" r s).riskAmount = 0 ∧
    (enforceZeroRisk "NO_TRADE" r s).lots = 0 := by
  unfold enforceZeroRisk
  rcases hr with hr | hr <;> simp [hr]

theorem htfMultOf_cases (s : String) :
    htfMultOf s = 1 ∨ htfMultOf s = 0.5 ∨ htfMultOf s = 0 := by
  unfold htfMultOf
  split_ifs <;> simp

theorem driftBand_mult_cases (cfg : DriftCfg) (drift : ℚ) :
    (driftBand cfg drift).2.1 = 1 ∨
    (driftBand cfg drift).2.1 = cfg.riskReductionMult ∨
    (driftBand cfg drift).2.1 = 0 := by
  unfold driftBand
  split_ifs <;> simp

theorem checkHtf_hard_of_parent (tf d : String)
    (results : List (String × TFResult)) (p : String) (pr : TFResult)
    (hp : htfParent tf = some p) (hl : lookupResult results p = some pr)
    (hd : pr.decision = "NO_TRADE") :
    checkHtfAlignment tf d results = "HARD_CONFLICT" := by
  unfold checkHtfAlignment
  simp [hp, hl, hd]

theorem predictCore_decision (cfg : Config) (tf : String) (inp : TFInput)
    (results : List (String × TFResult)) :
    (predictCore cfg tf inp results).decision = (coreFinalDR cfg tf inp results).1 := rfl

theorem predictCore_reason (cfg : Config) (tf : String) (inp : TFInput)
    (results : List (String × TFResult)) :
    (predictCore cfg tf inp results).rejectionReason
      = (coreFinalDR cfg tf inp results).2 := rfl

theorem predictCore_htfStatus (cfg : Config) (tf : String) (inp : TFInput)
    (results : List (String × TFResult)) :
    (predictCore cfg tf inp results).htfStatus
      = some (coreHtfStatus tf inp results) := rfl

theorem coreRules_decision_cases (cfg : Config) (tf : String) (inp : TFInput) :
    (coreRules cfg tf inp).1 = "TRADE" ∨ (coreRules cfg tf inp).1 = "NO_TRADE" :=
  checkTrade_decision_cases _ _ _ _ _ _

theorem coreAfterHtf_noTrade_of_hard (cfg : Config) (tf : String) (inp : TFInput)
    (results : List (String × TFResult))
    (hhard : coreHtfStatus tf inp results = "HARD_CONFLICT") :
    (coreAfterHtf cfg tf inp results).1 = "NO_TRADE" := by
  simp only [coreAfterHtf]
  rcases coreRules_decision_cases cfg tf inp with hT | hN
  · rw [if_pos ⟨hhard, hT⟩]
  · split_ifs with hc
    · rfl
    · exact hN

theorem coreNews_noTrade (cfg : Config) (tf : String) (inp : TFInput)
    (results : List (String × TFResult))
    (h : (coreAfterHtf cfg tf inp results).1 = "NO_TRADE") :
    (coreNews cfg tf inp results).1 = "NO_TRADE" := by
  unfold coreNews
  cases ha : inp.newsAssessment with
  | none => simpa using h
  | some a => exact newsGate_noTrade _ _ _ _ _ h

theorem coreAfterDrift_noTrade (cfg : Config) (tf : String) (inp : TFInput)
    (results : List (String × TFResult))
    (h : (coreNews cfg tf inp results).1 = "NO_TRADE") :
    (coreAfterDrift cfg tf inp results).1 = "NO_TRADE" := by
  unfold coreAfterDrift
  exact driftOverride_noTrade _ _ _ h

theorem coreFinalDR_of_noTrade (cfg : Config) (tf : String) (inp : TFInput)
    (results : List (String × TFResult))
    (h : (coreAfterDrift cfg tf inp results).1 = "NO_TRADE") :
    coreFinalDR cfg tf inp results = coreAfterDrift cfg tf inp results := by
  unfold coreFinalDR
  exact riskReject_noTrade _ _ _ h

theorem cascade_step (cfg : Config) (tf p : String) (inp : TFInput)
    (results : List (String × TFResult)) (pr : TFResult)
    (hp : htfParent tf = some p) (hl : lookupResult results p = some pr)
    (hd : pr.decision = "NO_TRADE") :
    (predictSingleTimeframe cfg tf inp results).decision = "NO_TRADE"
    ∧ (normalInputB inp = true →
       (predictSingleTimeframe cfg tf inp results).htfStatus = some "HARD_CONFLICT") := by
  by_cases hn : normalInputB inp = true
  · rw [predictSingle_eq_core cfg tf inp results hn]
    have hhard : coreHtfStatus tf inp results = "HARD_CONFLICT" :=
      checkHtf_hard_of_parent tf (coreDirection inp) results p pr hp hl hd
    have h3 : (coreAfterDrift cfg tf inp results).1 = "NO_TRADE" :=
      coreAfterDrift_noTrade cfg tf inp results
        (coreNews_noTrade cfg tf inp results
          (coreAfterHtf_noTrade_of_hard cfg tf inp results hhard))
    refine ⟨?_, fun _ => ?_⟩
    · rw [predictCore_decision, coreFinalDR_of_noTrade cfg tf inp results h3]
      exact h3
    · rw [predictCore_htfStatus, hhard]
  · have hn' : normalInputB inp = false := by
      cases hb : normalInputB inp
      · rfl
      · exact absurd hb hn
    rw [predictSingle_eq_err cfg tf inp results hn']
    exact ⟨rfl, fun h => absurd h hn⟩

/-! ### The prediction cycle, unrolled -/

/-- Result of the first timeframe of the cycle (`"1d"`). -/
def cycleR1 (cfg : Config) (inputs : String → TFInput) : TFResult :=
  predictSingleTimeframe cfg "1d" (inputs "1d") []

def cycleHist1 (cfg : Config) (inputs : String → TFInput) :
    List (String × TFResult) := [("1d", cycleR1 cfg inputs)]

def cycleR2 (cfg : Config) (inputs : String → TFInput) : TFResult :=
  predictSingleTimeframe cfg "4h" (inputs "4h") (cycleHist1 cfg inputs)

def cycleHist2 (cfg : Config) (inputs : String → TFInput) :
    List (String × TFResult) := cycleHist1 cfg inputs ++ [("4h", cycleR2 cfg inputs)]

def cycleR3 (cfg : Config) (inputs : String → TFInput) : TFResult :=
  predictSingleTimeframe cfg "1h" (inputs "1h") (cycleHist2 cfg inputs)

def cycleHist3 (cfg : Config) (inputs : String → TFInput) :
    List (String × TFResult) := cycleHist2 cfg inputs ++ [("1h", cycleR3 cfg inputs)]

def cycleR4 (cfg : Config) (inputs : String → TFInput) : TFResult :=
  predictSingleTimeframe cfg "30m" (inputs "30m") (cycleHist3 cfg inputs)

def cycleHist4 (cfg : Config) (inputs : String → TFInput) :
    List (String × TFResult) := cycleHist3 cfg inputs ++ [("30m", cycleR4 cfg inputs)]

def cycleR5 (cfg : Config) (inputs : String → TFInput) : TFResult :=
  predictSingleTimeframe cfg "15m" (inputs "15m") (cycleHist4 cfg inputs)

theorem predictAll_eq (cfg : Config) (inputs : String → TFInput) :
    predictAllTimeframes cfg inputs =
      [("1d", cycleR1 cfg inputs), ("4h", cycleR2 cfg inputs),
       ("1h", cycleR3 cfg inputs), ("30m", cycleR4 cfg inputs),
       ("15m", cycleR5 cfg inputs)] := rfl

theorem cycle_lookup_1d (cfg : Config) (inputs : String → TFInput) :
    lookupResult (predictAllTimeframes cfg inputs) "1d" = some (cycleR1 cfg inputs) := rfl

theorem cycle_lookup_4h (cfg : Config) (inputs : String → TFInput) :
    lookupResult (predictAllTimeframes cfg inputs) "4h" = some (cycleR2 cfg inputs) := rfl

theorem cycle_lookup_1h (cfg : Config) (inputs : String → TFInput) :
    lookupResult (predictAllTimeframes cfg inputs) "1h" = some (cycleR3 cfg inputs) := rfl

theorem cycle_lookup_30m (cfg : Config) (inputs : String → TFInput) :
    lookupResult (predictAllTimeframes cfg inputs) "30m" = some (cycleR4 cfg inputs) := rfl

theorem cycle_lookup_15m (cfg : Config) (inputs : String → TFInput) :
    lookupResult (predictAllTimeframes cfg inputs) "15m" = some (cycleR5 cfg inputs) := rfl

theorem cycle_step_2 (cfg : Config) (inputs : String → TFInput)
    (h : (cycleR1 cfg inputs).decision = "NO_TRADE") :
    (cycleR2 cfg inputs).decision = "NO_TRADE"
    ∧ (normalInputB (inputs "4h") = true →
       (cycleR2 cfg inputs).htfStatus = some "HARD_CONFLICT") :=
  cascade_step cfg "4h" "1d" (inputs "4h") (cycleHist1 cfg inputs)
    (cycleR1 cfg inputs) rfl rfl h

theorem cycle_step_3 (cfg : Config) (inputs : String → TFInput)
    (h : (cycleR2 cfg inputs).decision = "NO_TRADE") :
    (cycleR3 cfg inputs).decision = "NO_TRADE"
    ∧ (normalInputB (inputs "1h") = true →
       (cycleR3 cfg inputs).htfStatus = some "HARD_CONFLICT") :=
  cascade_step cfg "1h" "4h" (inputs "1h") (cycleHist2 cfg inputs)
    (cycleR2 cfg inputs) rfl rfl h

theorem cycle_step_4 (cfg : Config) (inputs : String → TFInput)
    (h : (cycleR3 cfg inputs).decision = "NO_TRADE") :
    (cycleR4 cfg inputs).decision = "NO_TRADE"
    ∧ (normalInputB (inputs "30m") = true →
       (cycleR4 cfg inputs).htfStatus = some "HARD_CONFLICT") :=
  cascade_step cfg "30m" "1h" (inputs "30m") (cycleHist3 cfg inputs)
    (cycleR3 cfg inputs) rfl rfl h

theorem cycle_step_5 (cfg : Config) (inputs : String → TFInput)
    (h : (cycleR4 cfg inputs).decision = "NO_TRADE") :
    (cycleR5 cfg inputs).decision = "NO_TRADE"
    ∧ (normalInputB (inputs "15m") = true →
       (cycleR5 cfg inputs).htfStatus = some "HARD_CONFLICT") :=
  cascade_step cfg "15m" "30m" (inputs "15m") (cycleHist4 cfg inputs)
    (cycleR4 cfg inputs) rfl rfl h

/-! ### Concrete scenario inputs -/

/-- A flat 10-bar frame: close 2000, range 1990–2005, ATR 10. -/
def flatBar : Bar := { high := 2005, low := 1990, close := 2000, atr := some 10 }

def flatDf : List Bar := List.replicate 10 flatBar

/-- Normal-path input: flat frame, raw probability 0.70, fitted calibrator
returning 0.70 (zero drift), news disabled. -/
def flatInput : TFInput :=
  { modelAvailable := true, rawDataLen := some 500, indicatorsOk := true,
    dfProc := flatDf, rawProbUp := 0.7, calibOut := some 0.7,
    newsAssessment := none }

/-- 50 bars with constant ATR 1 and a final ATR of 4: ratio ≈ 3.77, above
every spike threshold. -/
def dfSpike : List Bar := List.replicate 49 { atr := some 1 } ++ [{ atr := some 4 }]

/-- 50 bars with ADX 45 and flat ATR. -/
def dfStrong : List Bar := List.replicate 50 { atr := some 1, adx := some 45 }

/-- 50 bars with ADX 30 and flat ATR. -/
def dfWeak : List Bar := List.replicate 50 { atr := some 1, adx := some 30 }

/-- 50 bars, low ADX, BB width collapsing on the last bar (percentile 0). -/
def dfSqueeze : List Bar :=
  List.replicate 49 { adx := some 10, bbWidth := some 5 }
    ++ [{ adx := some 10, bbWidth := some 1 }]

/-- 50 bars, low ADX, BB width peaking on the last bar (percentile 98):
the default branch of `RegimeDetector.detect`. -/
def dfRangeDefault : List Bar :=
  List.replicate 49 { adx := some 10, bbWidth := some 5 }
    ++ [{ adx := some 10, bbWidth := some 6 }]

/-- Fewer than the 50-bar minimum lookback. -/
def dfShort : List Bar := List.replicate 10 { atr := some 1 }

/-- 50 bars whose last ATR is exactly twice the trailing ATR average
(49 bars at 24, one at 49: mean 24.5, ratio 2.0). -/
def dfVol2 : List Bar := List.replicate 49 { atr := some 24 } ++ [{ atr := some 49 }]

/-! ### C1 — NO_TRADE zeroes risk only for the two block codes -/

/-- Claim C1 (corrected), counterexample: with the default configuration, a
flat 10-bar frame, regime UNKNOWN, calibration SAFE and news disabled, the
rules engine rejects (`REGIME_FILTER`) so the final decision is NO_TRADE,
yet the risk manager independently produced a full TRADE setup whose risk
amount (50) and lot size (0.03) are attached unzeroed: the zeroing at
live_predictor.py lines 444–457 fires only for HIGH_IMPACT_NEWS and
CALIBRATION_UNSTABLE, refuting `decision == NO_TRADE ⇒ risk_amount == 0 ∧
size == 0` for every rejection reason. -/
theorem c1_counterexample :
    (predictSingleTimeframe defaultConfig "1d" flatInput []).decision = "NO_TRADE"
    ∧ (predictSingleTimeframe defaultConfig "1d" flatInput []).rejectionReason
        = some "REGIME_FILTER"
    ∧ ((predictSingleTimeframe defaultConfig "1d" flatInput []).setup.getD noSetup).riskAmount
        = 50
    ∧ ((predictSingleTimeframe defaultConfig "1d" flatInput []).setup.getD noSetup).lots
        = 3 / 100 := by
  with_unfolding_all decide

/-- Claim C1 (amended): for every per-timeframe Decision, when the final
decision is NO_TRADE with rejection reason HIGH_IMPACT_NEWS or
CALIBRATION_UNSTABLE the attached setup's risk amount and lot size are
exactly zero; other rejection reasons do not zero the setup (see the
counterexample). -/
theorem c1_no_trade_zero_risk_for_block_codes (cfg : Config) (tf : String)
    (inp : TFInput) (results : List (String × TFResult))
    (hd : (predictSingleTimeframe cfg tf inp results).decision = "NO_TRADE")
    (hr : (predictSingleTimeframe cfg tf inp results).rejectionReason
            = some "HIGH_IMPACT_NEWS"
        ∨ (predictSingleTimeframe cfg tf inp results).rejectionReason
            = some "CALIBRATION_UNSTABLE") :
    ((predictSingleTimeframe cfg tf inp results).setup.getD noSetup).riskAmount = 0
    ∧ ((predictSingleTimeframe cfg tf inp results).setup.getD noSetup).lots = 0 := by
  by_cases hn : normalInputB inp = true
  · rw [predictSingle_eq_core cfg tf inp results hn] at hd hr ⊢
    rw [predictCore_decision] at hd
    rw [predictCore_reason] at hr
    have hsetup : (predictCore cfg tf inp results).setup
        = some (coreSetup cfg tf inp results) := rfl
    rw [hsetup]
    simp only [Option.getD_some]
    simp only [coreFinalDR, riskRejectOverride] at hd hr
    split_ifs at hd hr with hcond
    · -- risk-manager override fired: the new reason is a risk-engine code,
      -- never one of the two block codes — contradiction with hr
      obtain ⟨hsNo, hrne, hdTr⟩ := hcond
      have hset : coreSetup cfg tf inp results
          = calculateTradeParams cfg.risk inp.dfProc (coreDirection inp)
              (coreConf2 cfg tf inp results)
              (coreCombinedPair cfg tf inp results).1 (coreRegime tf inp) := by
        simp only [coreSetup, enforceZeroRisk, hdTr]
        simp
      rcases calcParams_reason_cases cfg.risk inp.dfProc (coreDirection inp)
          (coreConf2 cfg tf inp results)
          (coreCombinedPair cfg tf inp results).1 (coreRegime tf inp) with h0 | h0
      · rw [hset, h0] at hr
        simp at hr
      · simp only [List.mem_cons, List.not_mem_nil, or_false] at h0
        rw [hset] at hr
        rcases h0 with h0 | h0 | h0 | h0 | h0 | h0 <;> rw [h0] at hr <;> simp at hr
    · -- override not fired: the decision/reason are those of the drift stage,
      -- and the setup was zeroed by the enforcement block
      simp only at hd hr
      have : coreSetup cfg tf inp results
          = enforceZeroRisk "NO_TRADE" (coreAfterDrift cfg tf inp results).2
              (calculateTradeParams cfg.risk inp.dfProc (coreDirection inp)
                (coreConf2 cfg tf inp results)
                (coreCombinedPair cfg tf inp results).1 (coreRegime tf inp)) := by
        simp only [coreSetup]
        rw [hd]
      rw [this]
      exact enforceZero_zeroes _ _ hr
  · have hn' : normalInputB inp = false := by
      cases hb : normalInputB inp
      · rfl
      · exact absurd hb hn
    rw [predictSingle_eq_err cfg tf inp results hn'] at hr
    simp [errResult] at hr

/-- Input whose fitted calibrator returns 0.20 for raw 0.70: drift 0.5,
CRITICAL. -/
def critInput : TFInput := { flatInput with calibOut := some 0.2 }

/-- Claim C1 (amended), witness at a CRITICAL-drift input where the decision
is NO_TRADE with reason CALIBRATION_UNSTABLE. -/
theorem c1_witness :
    ((predictSingleTimeframe defaultConfig "1d" critInput []).setup.getD noSetup).riskAmount = 0
    ∧ ((predictSingleTimeframe defaultConfig "1d" critInput []).setup.getD noSetup).lots = 0 :=
  c1_no_trade_zero_risk_for_block_codes defaultConfig "1d" critInput []
    (by with_unfolding_all decide) (Or.inr (by with_unfolding_all decide))

/-! ### C5 — missing/unfitted calibrator: flagged, but multiplier not reduced -/

/-- Input with no fitted calibrator. -/
def unfittedInput : TFInput := { flatInput with calibOut := none }

/-- Claim C5 (corrected), counterexample: with the calibrator missing, the
result is flagged (`calibration_warning = True`) but the drift computed from
the fallback `calib_prob_up = raw_prob_up` is zero, so the drift level is
SAFE and the drift risk multiplier stays at the full 1.0 (combined
multiplier 1.0) — the claim's "multiplier reduced (not left at the full
1.0)" is false. -/
theorem c5_counterexample :
    (predictSingleTimeframe defaultConfig "1d" unfittedInput []).calibrationWarning = some true
    ∧ (predictSingleTimeframe defaultConfig "1d" unfittedInput []).driftLevel = some "SAFE"
    ∧ (predictSingleTimeframe defaultConfig "1d" unfittedInput []).driftRiskMultiplier = some 1
    ∧ (predictSingleTimeframe defaultConfig "1d" unfittedInput []).combinedRiskMultiplier
        = some 1 := by
  with_unfolding_all decide

/-- Claim C5 (amended): a missing or unfitted calibrator flags the
prediction with a calibration warning, but the drift is 0, the drift level
SAFE and the drift risk multiplier remains the full 1.0 — no reduction and
no block. -/
theorem c5_unfitted_calibrator_flagged_not_reduced (cfg : Config) (tf : String)
    (inp : TFInput) (results : List (String × TFResult))
    (hn : normalInputB inp = true) (hc : inp.calibOut = none)
    (hsafe : 0 ≤ cfg.drift.safeDrift) :
    (predictSingleTimeframe cfg tf inp results).calibrationWarning = some true
    ∧ (predictSingleTimeframe cfg tf inp results).driftLevel = some "SAFE"
    ∧ (predictSingleTimeframe cfg tf inp results).driftRiskMultiplier = some 1 := by
  rw [predictSingle_eq_core cfg tf inp results hn]
  have hdrift : coreDrift inp = 0 := by
    unfold coreDrift coreFinalConf coreRawConf coreCalibProb
    rw [hc]
    split_ifs <;> simp
  refine ⟨?_, ?_, ?_⟩
  · show some (coreWarnFlag inp) = some true
    unfold coreWarnFlag
    rw [hc]
  · show some (coreDriftLevel cfg inp) = some "SAFE"
    unfold coreDriftLevel driftBand
    rw [hdrift]
    simp [hsafe]
  · show some (coreDriftMult cfg inp) = some 1
    unfold coreDriftMult driftBand
    rw [hdrift]
    simp [hsafe]

/-- Claim C5 (amended), witness. -/
theorem c5_witness :
    (predictSingleTimeframe defaultConfig "1d" unfittedInput []).calibrationWarning = some true
    ∧ (predictSingleTimeframe defaultConfig "1d" unfittedInput []).driftLevel = some "SAFE"
    ∧ (predictSingleTimeframe defaultConfig "1d" unfittedInput []).driftRiskMultiplier = some 1 :=
  c5_unfitted_calibrator_flagged_not_reduced defaultConfig "1d" unfittedInput []
    (by decide) rfl (by norm_num [defaultConfig])

/-! ### C6 — RegimeDetector.detect branch behaviour -/

/-- Claim C6 (code_bug): the spike, strong-trend, weak-trend, squeeze and
short-data branches behave as the claim states, but the final default
branch returns UNKNOWN where both the claim and the source's own
`# Default: Range` / `return "RANGE"` (regime.py line 159) intend RANGE: the
f-string on line 158 uses the invalid format specifier
`{adx:.1f if adx else 'N/A'}`, raising before the return, and the `except`
maps the error to UNKNOWN.  `dfRangeDefault` (50 bars, ADX 10, BB-width
percentile 98, ATR ratio 1) is the failing input. -/
theorem c6_regime_branches :
    regimeDetect "1h" dfSpike = "HIGH_VOLATILITY_NO_TRADE"
    ∧ regimeDetect "1h" dfStrong = "STRONG_TREND"
    ∧ regimeDetect "1h" dfWeak = "WEAK_TREND"
    ∧ regimeDetect "1h" dfSqueeze = "RANGE"
    ∧ regimeDetect "1h" dfShort = "UNKNOWN"
    ∧ regimeDetect "1h" dfRangeDefault = "UNKNOWN" := by
  with_unfolding_all decide

/-! ### C9 — commentary exclusion does not reach the news blocker -/

/-- A headline matching both a commentary-exclusion pattern
(`analyst says`) and a blocker keyword (`powell speech`). -/
def c9Headline : String := "Powell speech today as analyst says gold may dip"

/-- The same headline as a fresh news item (origin 10 minutes old, fetched
1 minute ago). -/
def c9Item : NewsItem :=
  { headline := c9Headline, source := "CNBC", originTs := some 0,
    fetchField := some (some 9) }

/-- Claim C9 (corrected), counterexample: a commentary headline is
classified high-impact by `HighImpactNewsBlocker.classify_news` (which
never consults the commentary patterns) and, being fresh, creates an active
LIVE_EVENT block that blocks trading. -/
theorem c9_counterexample :
    matchesCommentary c9Headline = true
    ∧ (classifyNews c9Headline "CNBC").map (·.newsType) = some "FOMC_SPEECH"
    ∧ (classifyNews c9Headline "CNBC").map (·.impactLevel) = some "HIGH"
    ∧ ((updateActiveBlocks {} [] [] [c9Item] 10).1.map (·.newsType)) = ["FOMC_SPEECH"]
    ∧ (getBlockStatus {} (updateActiveBlocks {} [] [] [c9Item] 10).1 10).isBlocked = true := by
  with_unfolding_all decide

/-- Claim C9 (amended): the commentary exclusion lives only in
`SentimentAnalyzer._is_high_impact` — every headline matching a commentary
pattern is excluded from the sentiment high-impact flag — while the
blocker's `classify_news` does not consult the commentary patterns, so a
fresh commentary headline matching a blocker pattern still creates an
active trading block (witnessed by the classification fact below). -/
theorem c9_commentary_excluded_only_in_sentiment :
    (∀ h : String, matchesCommentary h = true → sentimentIsHighImpact h = false)
    ∧ (classifyNews c9Headline "CNBC").isSome = true := by
  constructor
  · intro h hc
    unfold sentimentIsHighImpact
    rw [hc]
    rfl
  · with_unfolding_all decide

/-- Claim C9 (amended), witness: the commentary headline is excluded from
the sentiment high-impact flag. -/
theorem c9_witness : sentimentIsHighImpact c9Headline = false :=
  c9_commentary_excluded_only_in_sentiment.1 c9Headline (by with_unfolding_all decide)

/-! ### C10 — load_state never restores a block -/

/-- Claim C10 (confirmed): the `NewsBlock(...)` call inside `load_state`
passes the keyword set `{news_type, timestamp, source, headline,
impact_level}` which does not bind to `NewsBlock.__init__`'s required
parameters (`timestamp` is not a parameter; `origin_timestamp`,
`fetch_timestamp` and `classification` are missing), so the call raises
`TypeError`, the `except` swallows it, and for every persisted state the
restored active-block set is empty — a pre-restart cooldown block never
blocks trading after a restart. -/
theorem c10_load_state_drops_blocks :
    kwargsBind newsBlockInitParams loadStateCallKwargs = false
    ∧ ∀ (saved : List SavedBlock) (now : ℚ),
        loadStateBlocks saved = []
        ∧ (getBlockStatus {} (loadStateBlocks saved) now).isBlocked = false := by
  have hbind : kwargsBind newsBlockInitParams loadStateCallKwargs = false := by
    with_unfolding_all decide
  refine ⟨hbind, fun saved now => ?_⟩
  have hempty : loadStateBlocks saved = [] := by
    unfold loadStateBlocks
    cases saved with
    | nil => rfl
    | cons s rest =>
      unfold loadStateBlocks.go
      rw [hbind]
      simp
  refine ⟨hempty, ?_⟩
  rw [hempty]
  rfl

/-! ### C8 — the NO_TRADE cascade down the hierarchy -/

/-- Inputs where only `"1d"` has a model; every other timeframe hits the
missing-model early return. -/
def c8CeInputs : String → TFInput :=
  fun tf => if tf = "1d" then flatInput else { modelAvailable := false }

/-- Claim C8 (corrected), counterexample: `"1d"` decides NO_TRADE, but its
child `"4h"` has no model, returns the INSUFFICIENT_DATA early result and
carries no HTF alignment status at all — so "every descendant gets HTF
alignment status HARD_CONFLICT" fails (the descendant's decision is still
NO_TRADE). -/
theorem c8_counterexample :
    tfBelow "1d" "4h" = true
    ∧ (lookupResult (predictAllTimeframes defaultConfig c8CeInputs) "1d").map (·.decision)
        = some "NO_TRADE"
    ∧ (lookupResult (predictAllTimeframes defaultConfig c8CeInputs) "4h").map (·.decision)
        = some "NO_TRADE"
    ∧ ¬ ((lookupResult (predictAllTimeframes defaultConfig c8CeInputs) "4h").bind (·.htfStatus)
        = some "HARD_CONFLICT") := by
  with_unfolding_all decide

/-- Claim C8 (amended): within one cycle in hierarchy order, if an ancestor
timeframe's decision is NO_TRADE then every strictly lower timeframe's
decision is NO_TRADE, and every strictly lower timeframe that completes the
normal prediction path (model present, sufficient data) gets HTF alignment
status HARD_CONFLICT; a descendant that fails early is NO_TRADE with
INSUFFICIENT_DATA but carries no alignment status (see the
counterexample). -/
theorem c8_cascade (cfg : Config) (inputs : String → TFInput) (anc desc : String)
    (hb : tfBelow anc desc = true)
    (hanc : (lookupResult (predictAllTimeframes cfg inputs) anc).map (·.decision)
        = some "NO_TRADE") :
    (lookupResult (predictAllTimeframes cfg inputs) desc).map (·.decision)
        = some "NO_TRADE"
    ∧ (normalInputB (inputs desc) = true →
       (lookupResult (predictAllTimeframes cfg inputs) desc).bind (·.htfStatus)
         = some "HARD_CONFLICT") := by
  have hb' : (anc = "1d" ∨ anc = "4h" ∨ anc = "1h" ∨ anc = "30m" ∨ anc = "15m")
      ∧ (desc = "1d" ∨ desc = "4h" ∨ desc = "1h" ∨ desc = "30m" ∨ desc = "15m") := by
    unfold tfBelow tfHierarchy at hb
    simp only [Bool.and_eq_true, decide_eq_true_eq] at hb
    obtain ⟨⟨hc1, hc2⟩, _⟩ := hb
    exact ⟨by simpa using hc1, by simpa using hc2⟩
  obtain ⟨ha, hd2⟩ := hb'
  rcases ha with rfl | rfl | rfl | rfl | rfl <;> rcases hd2 with rfl | rfl | rfl | rfl | rfl <;>
    first
      | exact absurd hb (by decide)
      | skip
  -- anc = "1d"
  · replace hanc : (cycleR1 cfg inputs).decision = "NO_TRADE" := by
      simpa [cycle_lookup_1d] using hanc
    have h2 := cycle_step_2 cfg inputs hanc
    exact ⟨by simp [cycle_lookup_4h, h2.1], fun hn => by simp [cycle_lookup_4h, h2.2 hn]⟩
  · replace hanc : (cycleR1 cfg inputs).decision = "NO_TRADE" := by
      simpa [cycle_lookup_1d] using hanc
    have h3 := cycle_step_3 cfg inputs (cycle_step_2 cfg inputs hanc).1
    exact ⟨by simp [cycle_lookup_1h, h3.1], fun hn => by simp [cycle_lookup_1h, h3.2 hn]⟩
  · replace hanc : (cycleR1 cfg inputs).decision = "NO_TRADE" := by
      simpa [cycle_lookup_1d] using hanc
    have h4 := cycle_step_4 cfg inputs
      (cycle_step_3 cfg inputs (cycle_step_2 cfg inputs hanc).1).1
    exact ⟨by simp [cycle_lookup_30m, h4.1], fun hn => by simp [cycle_lookup_30m, h4.2 hn]⟩
  · replace hanc : (cycleR1 cfg inputs).decision = "NO_TRADE" := by
      simpa [cycle_lookup_1d] using hanc
    have h5 := cycle_step_5 cfg inputs
      (cycle_step_4 cfg inputs
        (cycle_step_3 cfg inputs (cycle_step_2 cfg inputs hanc).1).1).1
    exact ⟨by simp [cycle_lookup_15m, h5.1], fun hn => by simp [cycle_lookup_15m, h5.2 hn]⟩
  -- anc = "4h"
  · replace hanc : (cycleR2 cfg inputs).decision = "NO_TRADE" := by
      simpa [cycle_lookup_4h] using hanc
    have h3 := cycle_step_3 cfg inputs hanc
    exact ⟨by simp [cycle_lookup_1h, h3.1], fun hn => by simp [cycle_lookup_1h, h3.2 hn]⟩
  · replace hanc : (cycleR2 cfg inputs).decision = "NO_TRADE" := by
      simpa [cycle_lookup_4h] using hanc
    have h4 := cycle_step_4 cfg inputs (cycle_step_3 cfg inputs hanc).1
    exact ⟨by simp [cycle_lookup_30m, h4.1], fun hn => by simp [cycle_lookup_30m, h4.2 hn]⟩
  · replace hanc : (cycleR2 cfg inputs).decision = "NO_TRADE" := by
      simpa [cycle_lookup_4h] using hanc
    have h5 := cycle_step_5 cfg inputs
      (cycle_step_4 cfg inputs (cycle_step_3 cfg inputs hanc).1).1
    exact ⟨by simp [cycle_lookup_15m, h5.1], fun hn => by simp [cycle_lookup_15m, h5.2 hn]⟩
  -- anc = "1h"
  · replace hanc : (cycleR3 cfg inputs).decision = "NO_TRADE" := by
      simpa [cycle_lookup_1h] using hanc
    have h4 := cycle_step_4 cfg inputs hanc
    exact ⟨by simp [cycle_lookup_30m, h4.1], fun hn => by simp [cycle_lookup_30m, h4.2 hn]⟩
  · replace hanc : (cycleR3 cfg inputs).decision = "NO_TRADE" := by
      simpa [cycle_lookup_1h] using hanc
    have h5 := cycle_step_5 cfg inputs (cycle_step_4 cfg inputs hanc).1
    exact ⟨by simp [cycle_lookup_15m, h5.1], fun hn => by simp [cycle_lookup_15m, h5.2 hn]⟩
  -- anc = "30m"
  · replace hanc : (cycleR4 cfg inputs).decision = "NO_TRADE" := by
      simpa [cycle_lookup_30m] using hanc
    have h5 := cycle_step_5 cfg inputs hanc
    exact ⟨by simp [cycle_lookup_15m, h5.1], fun hn => by simp [cycle_lookup_15m, h5.2 hn]⟩

/-- Inputs where every timeframe uses the flat frame (regime UNKNOWN, so
`"1d"` is NO_TRADE by the rules engine). -/
def c8wInputs : String → TFInput := fun _ => flatInput

/-- Claim C8 (amended), witness: with `"1d"` NO_TRADE and all descendants on
the normal path, `"15m"` is NO_TRADE with HTF status HARD_CONFLICT. -/
theorem c8_witness :
    (lookupResult (predictAllTimeframes defaultConfig c8wInputs) "15m").map (·.decision)
        = some "NO_TRADE"
    ∧ (lookupResult (predictAllTimeframes defaultConfig c8wInputs) "15m").bind (·.htfStatus)
        = some "HARD_CONFLICT" := by
  have h := c8_cascade defaultConfig c8wInputs "1d" "15m" (by decide)
    (by with_unfolding_all decide)
  exact ⟨h.1, h.2 (by decide)⟩

/-! ### C2 — an active LIVE_EVENT block always forces NO_TRADE -/

/-- Claim C2 (confirmed): whenever the news blocker reports an active block
with classification LIVE_EVENT and news blocking is enabled, a timeframe on
the normal prediction path decides NO_TRADE with rejection reason
HIGH_IMPACT_NEWS and news risk multiplier 0, whatever the RuleFilter
verdict, the HTF alignment status, and the calibration drift level (all of
which are universally quantified here through the input and accumulated
results). -/
theorem c2_live_event_block_forces_no_trade (cfg : Config) (tf : String)
    (inp : TFInput) (results : List (String × TFResult)) (bs : BlockStatus)
    (cal : CalendarRisk) (sent : SentimentAgg)
    (hn : normalInputB inp = true)
    (hblk : cfg.news.enableNewsBlocking = true)
    (hb : bs.isBlocked = true) (hc : bs.classification = some "LIVE_EVENT")
    (ha : inp.newsAssessment = some (getNewsAssessment cfg.news bs cal sent)) :
    (predictSingleTimeframe cfg tf inp results).decision = "NO_TRADE"
    ∧ (predictSingleTimeframe cfg tf inp results).rejectionReason
        = some "HIGH_IMPACT_NEWS"
    ∧ (predictSingleTimeframe cfg tf inp results).newsRiskMult = some 0 := by
  rw [predictSingle_eq_core cfg tf inp results hn]
  have hass : getNewsAssessment cfg.news bs cal sent =
      { canTrade := false, reason := some "HIGH_IMPACT_NEWS", riskMultiplier := 0,
        sentimentScore := sent.aggregateScore, blockStatus := some bs } := by
    unfold getNewsAssessment
    rw [if_pos ⟨hblk, hb, hc⟩]
  have hnews : coreNews cfg tf inp results = ("NO_TRADE", some "HIGH_IMPACT_NEWS", 0) := by
    unfold coreNews
    simp only [ha, hass]
    exact newsGate_cooldown _ _ _ _ _ bs rfl rfl hb
  have hdrift : coreAfterDrift cfg tf inp results
      = ("NO_TRADE", some "HIGH_IMPACT_NEWS") := by
    unfold coreAfterDrift
    rw [hnews]
    simp [driftOverride]
  have hpair : coreCombinedPair cfg tf inp results = (0, 0) := by
    unfold coreCombinedPair
    rw [hdrift]
    simp
  have hfinal : coreFinalDR cfg tf inp results
      = ("NO_TRADE", some "HIGH_IMPACT_NEWS") := by
    simp only [coreFinalDR]
    rw [hdrift]
    exact riskReject_noTrade _ _ _ rfl
  refine ⟨?_, ?_, ?_⟩
  · rw [predictCore_decision, hfinal]
  · rw [predictCore_reason, hfinal]
  · show some (coreCombinedPair cfg tf inp results).2 = some 0
    rw [hpair]

/-- A blocked LIVE_EVENT status (as `get_block_status` reports during an
active, TTL-fresh cooldown). -/
def c2bs : BlockStatus :=
  { isBlocked := true, canTrade := false, reason := some "HIGH_IMPACT_NEWS",
    classification := some "LIVE_EVENT" }

def c2Input : TFInput :=
  { flatInput with
    newsAssessment := some (getNewsAssessment defaultConfig.news c2bs {} {}) }

/-- Claim C2, witness at a concrete blocked cycle. -/
theorem c2_witness :
    (predictSingleTimeframe defaultConfig "1d" c2Input []).decision = "NO_TRADE"
    ∧ (predictSingleTimeframe defaultConfig "1d" c2Input []).rejectionReason
        = some "HIGH_IMPACT_NEWS"
    ∧ (predictSingleTimeframe defaultConfig "1d" c2Input []).newsRiskMult = some 0 :=
  c2_live_event_block_forces_no_trade defaultConfig "1d" c2Input [] c2bs {} {}
    (by decide) rfl rfl rfl rfl

/-! ### C3 — calibration-drift gating -/

theorem coreRules_reason_cases (cfg : Config) (tf : String) (inp : TFInput) :
    (coreRules cfg tf inp).2 = none ∨
    (coreRules cfg tf inp).2 ∈
      [some "RANGE_MARKET", some "HIGH_VOLATILITY", some "REGIME_FILTER",
       some "LOW_CONFIDENCE", some "LOW_VOLATILITY"] :=
  checkTrade_reason_cases _ _ _ _ _ _

theorem coreAfterHtf_reason_ne (cfg : Config) (tf : String) (inp : TFInput)
    (results : List (String × TFResult)) :
    (coreAfterHtf cfg tf inp results).2 ≠ some "HIGH_IMPACT_NEWS"
    ∧ (coreAfterHtf cfg tf inp results).2 ≠ some "CALIBRATION_UNSTABLE" := by
  simp only [coreAfterHtf]
  split_ifs
  · simp
  · rcases coreRules_reason_cases cfg tf inp with h0 | h0
    · rw [h0]; simp
    · simp only [List.mem_cons, List.not_mem_nil, or_false] at h0
      rcases h0 with h0 | h0 | h0 | h0 | h0 <;> rw [h0] <;> simp

/-- Claim C3 (confirmed): on the normal path, with `safe_drift ≤
warning_drift`, drift above the warning threshold gives drift level
CRITICAL, drift risk multiplier 0 and decision NO_TRADE whose reason is
CALIBRATION_UNSTABLE unless the news assessment denies trading (the only
gate that can hold the HIGH_IMPACT_NEWS reason against the override);
drift in `(safe, warning]` gives WARNING, multiplier
`risk_reduction_multiplier` (default 0.5), and the drift gate never
contributes a CALIBRATION_UNSTABLE rejection — the trade stays eligible. -/
theorem c3_drift_gating (cfg : Config) (tf : String) (inp : TFInput)
    (results : List (String × TFResult)) (c : ℚ)
    (hn : normalInputB inp = true)
    (hsw : cfg.drift.safeDrift ≤ cfg.drift.warningDrift)
    (hc : inp.calibOut = some c) :
    (cfg.drift.warningDrift < |c - inp.rawProbUp| →
      (predictSingleTimeframe cfg tf inp results).driftLevel = some "CRITICAL"
      ∧ (predictSingleTimeframe cfg tf inp results).driftRiskMultiplier = some 0
      ∧ (predictSingleTimeframe cfg tf inp results).decision = "NO_TRADE"
      ∧ ((predictSingleTimeframe cfg tf inp results).rejectionReason
            = some "CALIBRATION_UNSTABLE"
         ∨ (predictSingleTimeframe cfg tf inp results).rejectionReason
            = some "HIGH_IMPACT_NEWS")
      ∧ ((∀ a, inp.newsAssessment = some a → a.canTrade = true) →
          (predictSingleTimeframe cfg tf inp results).rejectionReason
            = some "CALIBRATION_UNSTABLE"))
    ∧ (cfg.drift.safeDrift < |c - inp.rawProbUp| →
       |c - inp.rawProbUp| ≤ cfg.drift.warningDrift →
      (predictSingleTimeframe cfg tf inp results).driftLevel = some "WARNING"
      ∧ (predictSingleTimeframe cfg tf inp results).driftRiskMultiplier
          = some cfg.drift.riskReductionMult
      ∧ (predictSingleTimeframe cfg tf inp results).rejectionReason
          ≠ some "CALIBRATION_UNSTABLE") := by
  rw [predictSingle_eq_core cfg tf inp results hn]
  have hdeq : coreDrift inp = |c - inp.rawProbUp| := by
    unfold coreDrift coreFinalConf coreRawConf coreCalibProb
    rw [hc]
    split_ifs
    · rfl
    · have h1 : (1 : ℚ) - c - (1 - inp.rawProbUp) = -(c - inp.rawProbUp) := by ring
      rw [h1, abs_neg]
  constructor
  · intro hcrit
    have hnots : ¬ (coreDrift inp ≤ cfg.drift.safeDrift) := by rw [hdeq]; linarith
    have hnotw : ¬ (coreDrift inp ≤ cfg.drift.warningDrift) := by rw [hdeq]; linarith
    have hlevel : coreDriftLevel cfg inp = "CRITICAL" := by
      unfold coreDriftLevel driftBand
      rw [if_neg hnots, if_neg hnotw]
    have hmult : coreDriftMult cfg inp = 0 := by
      unfold coreDriftMult driftBand
      rw [if_neg hnots, if_neg hnotw]
    have had : coreAfterDrift cfg tf inp results
        = driftOverride "CRITICAL" (coreNews cfg tf inp results).1
            (coreNews cfg tf inp results).2.1 := by
      unfold coreAfterDrift
      rw [hlevel]
    have hdr1 : (coreAfterDrift cfg tf inp results).1 = "NO_TRADE" := by
      rw [had]
      rcases driftOverride_critical (coreNews cfg tf inp results).1
          (coreNews cfg tf inp results).2.1 with hov | ⟨h1, h2, hov⟩ <;> rw [hov]
      exact h1
    have hfinal := coreFinalDR_of_noTrade cfg tf inp results hdr1
    refine ⟨?_, ?_, ?_, ?_, ?_⟩
    · show some (coreDriftLevel cfg inp) = some "CRITICAL"
      rw [hlevel]
    · show some (coreDriftMult cfg inp) = some 0
      rw [hmult]
    · rw [predictCore_decision, hfinal]
      exact hdr1
    · rw [predictCore_reason, hfinal, had]
      rcases driftOverride_critical (coreNews cfg tf inp results).1
          (coreNews cfg tf inp results).2.1 with hov | ⟨h1, h2, hov⟩ <;> rw [hov]
      · left; rfl
      · right; exact h2
    · intro hcanT
      rw [predictCore_reason, hfinal, had]
      have hcr : (coreNews cfg tf inp results).2.1
          = (coreAfterHtf cfg tf inp results).2 := by
        unfold coreNews
        cases ha : inp.newsAssessment with
        | none => simp
        | some a =>
          show (newsGate inp.dfProc (coreRegime tf inp) a
              (coreAfterHtf cfg tf inp results).1
              (coreAfterHtf cfg tf inp results).2).2.1
            = (coreAfterHtf cfg tf inp results).2
          rw [newsGate_canTrade _ _ _ _ _ (hcanT a ha)]
      rcases driftOverride_critical (coreNews cfg tf inp results).1
          (coreNews cfg tf inp results).2.1 with hov | ⟨h1, h2, hov⟩
      · rw [hov]
      · rw [hcr] at h2
        exact absurd h2 (coreAfterHtf_reason_ne cfg tf inp results).1
  · intro hgt hle
    have hnots : ¬ (coreDrift inp ≤ cfg.drift.safeDrift) := by rw [hdeq]; linarith
    have hw : coreDrift inp ≤ cfg.drift.warningDrift := by rw [hdeq]; exact hle
    have hlevel : coreDriftLevel cfg inp = "WARNING" := by
      unfold coreDriftLevel driftBand
      rw [if_neg hnots, if_pos hw]
    have hmult : coreDriftMult cfg inp = cfg.drift.riskReductionMult := by
      unfold coreDriftMult driftBand
      rw [if_neg hnots, if_pos hw]
    have had : coreAfterDrift cfg tf inp results
        = ((coreNews cfg tf inp results).1, (coreNews cfg tf inp results).2.1) := by
      unfold coreAfterDrift
      rw [hlevel]
      exact driftOverride_not_critical _ _ _ (by decide)
    refine ⟨?_, ?_, ?_⟩
    · show some (coreDriftLevel cfg inp) = some "WARNING"
      rw [hlevel]
    · show some (coreDriftMult cfg inp) = some cfg.drift.riskReductionMult
      rw [hmult]
    · rw [predictCore_reason]
      simp only [coreFinalDR, riskRejectOverride]
      split_ifs with hcond
      · obtain ⟨hsNo, hrne, hdTr⟩ := hcond
        have hset : coreSetup cfg tf inp results
            = calculateTradeParams cfg.risk inp.dfProc (coreDirection inp)
                (coreConf2 cfg tf inp results)
                (coreCombinedPair cfg tf inp results).1 (coreRegime tf inp) := by
          simp only [coreSetup, enforceZeroRisk, hdTr]
          simp
        show some ((coreSetup cfg tf inp results).reason.getD "RISK_CHECK_FAILED")
            ≠ some "CALIBRATION_UNSTABLE"
        rw [hset]
        rcases calcParams_reason_cases cfg.risk inp.dfProc (coreDirection inp)
            (coreConf2 cfg tf inp results)
            (coreCombinedPair cfg tf inp results).1 (coreRegime tf inp) with h0 | h0
        · rw [h0]; simp
        · simp only [List.mem_cons, List.not_mem_nil, or_false] at h0
          rcases h0 with h0 | h0 | h0 | h0 | h0 | h0 <;> rw [h0] <;> simp
      · show (coreAfterDrift cfg tf inp results).2 ≠ some "CALIBRATION_UNSTABLE"
        have hsnd : (coreAfterDrift cfg tf inp results).2
            = (coreNews cfg tf inp results).2.1 := by rw [had]
        rw [hsnd]
        have hcr2 : (coreNews cfg tf inp results).2.1 = some "HIGH_IMPACT_NEWS"
            ∨ (coreNews cfg tf inp results).2.1
                = (coreAfterHtf cfg tf inp results).2 := by
          unfold coreNews
          cases ha : inp.newsAssessment with
          | none => right; simp
          | some a => exact newsGate_reason_cases _ _ _ _ _
        rcases hcr2 with h0 | h0 <;> rw [h0]
        · simp
        · exact (coreAfterHtf_reason_ne cfg tf inp results).2

/-- Input whose fitted calibrator returns 0.50 for raw 0.70: drift 0.2 in
the WARNING band. -/
def warnInput : TFInput := { flatInput with calibOut := some 0.5 }

/-- Claim C3, witness: the CRITICAL band at `critInput` (drift 0.5) and the
WARNING band at `warnInput` (drift 0.2), with the default thresholds. -/
theorem c3_witness :
    ((predictSingleTimeframe defaultConfig "1d" critInput []).driftLevel = some "CRITICAL"
      ∧ (predictSingleTimeframe defaultConfig "1d" critInput []).decision = "NO_TRADE"
      ∧ (predictSingleTimeframe defaultConfig "1d" critInput []).rejectionReason
          = some "CALIBRATION_UNSTABLE")
    ∧ ((predictSingleTimeframe defaultConfig "1d" warnInput []).driftLevel = some "WARNING"
      ∧ (predictSingleTimeframe defaultConfig "1d" warnInput []).driftRiskMultiplier
          = some (1 / 2)) := by
  constructor
  · have h := (c3_drift_gating defaultConfig "1d" critInput [] 0.2 (by decide)
        (by norm_num [defaultConfig]) rfl).1
      (by norm_num [critInput, flatInput, defaultConfig, abs_of_nonneg])
    refine ⟨h.1, h.2.2.1, h.2.2.2.2 ?_⟩
    intro a ha
    simp [critInput, flatInput] at ha
  · have h := (c3_drift_gating defaultConfig "1d" warnInput [] 0.5 (by decide)
        (by norm_num [defaultConfig]) rfl).2
      (by norm_num [warnInput, flatInput, defaultConfig, abs_of_nonneg])
      (by norm_num [warnInput, flatInput, defaultConfig, abs_of_nonneg])
    refine ⟨h.1, ?_⟩
    rw [h.2.1]
    norm_num [defaultConfig]

/-! ### C7 — the combined multiplier is the product and stays in [0,1] -/

/-- Claim C7 (confirmed): on the normal path, with the configured
risk-reduction multiplier in `[0,1]` and the news assessment's risk
multiplier in `[0,1]` (which `get_news_assessment` guarantees for in-range
calendar/config multipliers), the combined risk multiplier passed to the
risk sizer equals the product of the HTF, news and calibration-drift
multipliers of the Decision and lies in `[0,1]`. -/
theorem c7_combined_multiplier_product (cfg : Config) (tf : String) (inp : TFInput)
    (results : List (String × TFResult))
    (hn : normalInputB inp = true)
    (hr0 : 0 ≤ cfg.drift.riskReductionMult) (hr1 : cfg.drift.riskReductionMult ≤ 1)
    (hna : ∀ a, inp.newsAssessment = some a →
        0 ≤ a.riskMultiplier ∧ a.riskMultiplier ≤ 1) :
    (predictSingleTimeframe cfg tf inp results).combinedRiskMultiplier
      = some ((predictSingleTimeframe cfg tf inp results).htfRiskMultiplier.getD 0
          * (predictSingleTimeframe cfg tf inp results).newsRiskMult.getD 0
          * (predictSingleTimeframe cfg tf inp results).driftRiskMultiplier.getD 0)
    ∧ 0 ≤ (predictSingleTimeframe cfg tf inp results).combinedRiskMultiplier.getD 0
    ∧ (predictSingleTimeframe cfg tf inp results).combinedRiskMultiplier.getD 0 ≤ 1 := by
  rw [predictSingle_eq_core cfg tf inp results hn]
  have hpair : (coreCombinedPair cfg tf inp results).1
      = htfMultOf (coreHtfStatus tf inp results)
        * (coreCombinedPair cfg tf inp results).2 * coreDriftMult cfg inp := by
    simp only [coreCombinedPair]
    split_ifs
    · simp
    · rfl
  have hhtf : 0 ≤ htfMultOf (coreHtfStatus tf inp results)
      ∧ htfMultOf (coreHtfStatus tf inp results) ≤ 1 := by
    rcases htfMultOf_cases (coreHtfStatus tf inp results) with h | h | h <;>
      rw [h] <;> norm_num
  have hdriftB : 0 ≤ coreDriftMult cfg inp ∧ coreDriftMult cfg inp ≤ 1 := by
    unfold coreDriftMult
    rcases driftBand_mult_cases cfg.drift (coreDrift inp) with h | h | h <;> rw [h]
    · norm_num
    · exact ⟨hr0, hr1⟩
    · norm_num
  have hnews : 0 ≤ (coreCombinedPair cfg tf inp results).2
      ∧ (coreCombinedPair cfg tf inp results).2 ≤ 1 := by
    have hcases : (coreCombinedPair cfg tf inp results).2 = 0
        ∨ (coreCombinedPair cfg tf inp results).2
            = (coreNews cfg tf inp results).2.2 := by
      simp only [coreCombinedPair]
      split_ifs <;> simp
    have hcore : (coreNews cfg tf inp results).2.2 = 0
        ∨ (coreNews cfg tf inp results).2.2 = 1
        ∨ ∃ a, inp.newsAssessment = some a
            ∧ (coreNews cfg tf inp results).2.2 = a.riskMultiplier := by
      unfold coreNews
      cases ha : inp.newsAssessment with
      | none => right; left; simp
      | some a =>
        rcases newsGate_mult_cases inp.dfProc (coreRegime tf inp) a
            (coreAfterHtf cfg tf inp results).1
            (coreAfterHtf cfg tf inp results).2 with h | h | h
        · left; exact h
        · right; left; exact h
        · right; right; exact ⟨a, rfl, h⟩
    rcases hcases with h | h <;> rw [h]
    · norm_num
    · rcases hcore with h2 | h2 | ⟨a, ha, h2⟩ <;> rw [h2]
      · norm_num
      · norm_num
      · exact hna a ha
  refine ⟨?_, ?_, ?_⟩
  · show some (coreCombinedPair cfg tf inp results).1
        = some (htfMultOf (coreHtfStatus tf inp results)
            * (coreCombinedPair cfg tf inp results).2 * coreDriftMult cfg inp)
    rw [hpair]
  · show 0 ≤ (coreCombinedPair cfg tf inp results).1
    rw [hpair]
    exact mul_nonneg (mul_nonneg hhtf.1 hnews.1) hdriftB.1
  · show (coreCombinedPair cfg tf inp results).1 ≤ 1
    rw [hpair]
    have h1 : htfMultOf (coreHtfStatus tf inp results)
        * (coreCombinedPair cfg tf inp results).2 ≤ 1 := by
      nlinarith [hhtf.1, hhtf.2, hnews.1, hnews.2]
    have h0 : 0 ≤ htfMultOf (coreHtfStatus tf inp results)
        * (coreCombinedPair cfg tf inp results).2 :=
      mul_nonneg hhtf.1 hnews.1
    nlinarith [h1, h0, hdriftB.1, hdriftB.2]

/-- Claim C7, witness at the flat input (all three multipliers 1). -/
theorem c7_witness :
    (predictSingleTimeframe defaultConfig "1d" flatInput []).combinedRiskMultiplier
      = some ((predictSingleTimeframe defaultConfig "1d" flatInput []).htfRiskMultiplier.getD 0
          * (predictSingleTimeframe defaultConfig "1d" flatInput []).newsRiskMult.getD 0
          * (predictSingleTimeframe defaultConfig "1d" flatInput []).driftRiskMultiplier.getD 0)
    ∧ 0 ≤ (predictSingleTimeframe defaultConfig "1d" flatInput []).combinedRiskMultiplier.getD 0
    ∧ (predictSingleTimeframe defaultConfig "1d" flatInput []).combinedRiskMultiplier.getD 0
        ≤ 1 :=
  c7_combined_multiplier_product defaultConfig "1d" flatInput [] (by decide)
    (by norm_num [defaultConfig]) (by norm_num [defaultConfig])
    (fun a ha => by simp [flatInput] at ha)

/-! ### C4 — the FOMC cooldown scenario -/

/-- The FOMC-type headline: origin 10 minutes before `now = 10`, fetched 1
minute before. -/
def c4Item : NewsItem :=
  { headline := "FOMC decision on rate path", source := "Reuters",
    originTs := some 0, fetchField := some (some 9) }

def c4Blocks : List NewsBlock := (detectHighImpactNews {} [] [c4Item] 10).1

/-- The block `detect_high_impact_news` creates for `c4Item`. -/
def c4Block : NewsBlock :=
  { newsType := "FOMC_DECISION", originTs := 0, fetchTs := 9,
    source := "Reuters", headline := "FOMC decision on rate path",
    impactLevel := "HIGH", classification := "LIVE_EVENT",
    cooldownMinutes := 150, blockUntil := 150 }

theorem getBlockStatus_single_iff (cfg : BlockerCfg) (b : NewsBlock) (now : ℚ) :
    ((getBlockStatus cfg [b] now).isBlocked = true)
      ↔ (now < b.blockUntil ∧ now - b.originTs ≤ cfg.highImpactBlockMinutes
         ∧ now - b.fetchTs ≤ cfg.maxNewsAgeMinutes
         ∧ b.classification = "LIVE_EVENT") := by
  by_cases h : now < b.blockUntil
  · have hst : getBlockStatus cfg [b] now =
        (if cfg.highImpactBlockMinutes < now - b.originTs
            ∨ cfg.maxNewsAgeMinutes < now - b.fetchTs
            ∨ b.classification ≠ "LIVE_EVENT" then { isBlocked := false }
         else
           { isBlocked := true, canTrade := false, reason := some "HIGH_IMPACT_NEWS",
             classification := some b.classification, newsEvent := some b.newsType,
             impactLevel := some b.impactLevel, cooldownMinutes := some b.cooldownMinutes,
             blockUntil := some b.blockUntil, originTs := some b.originTs,
             fetchTs := some b.fetchTs }) := by
      unfold getBlockStatus firstActiveBlock NewsBlock.isActive
      have hf : List.find? (fun x => decide (now < x.blockUntil)) [b] = some b := by
        simp [List.find?, h]
      rw [hf]
    rw [hst]
    split_ifs with httl
    · refine iff_of_false (by simp) ?_
      rintro ⟨-, h1, h2, h3⟩
      rcases httl with hh | hh | hh
      · exact absurd h1 (not_le.mpr hh)
      · exact absurd h2 (not_le.mpr hh)
      · exact hh h3
    · push_neg at httl
      exact iff_of_true rfl ⟨h, httl.1, httl.2.1, httl.2.2⟩
  · have hst : getBlockStatus cfg [b] now = { isBlocked := false } := by
      unfold getBlockStatus firstActiveBlock NewsBlock.isActive
      have hf : List.find? (fun x => decide (now < x.blockUntil)) [b] = none := by
        simp [List.find?, h]
      rw [hf]
    rw [hst]
    exact iff_of_false (by simp) (fun hx => h hx.1)

/-- Claim C4 (corrected), counterexample: the detected block's cooldown is
150 minutes (`block_until` 140 minutes after `now`), and the cooldown is
still running 100 minutes later (`is_active` true at 110), yet
`get_block_status` already reports `is_blocked = False` there — its TTL
double-check expires the block when the fetch age exceeds
`max_news_age_minutes` (60) or the origin age exceeds
`high_impact_block_minutes` (90), long before the 140 minutes the claim
asserts. -/
theorem c4_counterexample :
    ((detectHighImpactNews {} [] [c4Item] 10).1.map (·.cooldownMinutes)) = [150]
    ∧ ((detectHighImpactNews {} [] [c4Item] 10).1.map (·.blockUntil)) = [150]
    ∧ (c4Blocks.map (fun b => b.isActive 110)) = [true]
    ∧ (getBlockStatus {} c4Blocks 110).isBlocked = false := by
  with_unfolding_all decide

/-- Claim C4 (amended): for the FOMC scenario (origin 10 minutes ago, fetch
1 minute ago, cooldown 150 minutes), `get_block_status` reports
`is_blocked = True` exactly for the next 59 minutes — until the fetch age
exceeds the default 60-minute `max_news_age_minutes` ceiling (the 90-minute
origin ceiling would cut it at 80, the nominal cooldown only at 140) — and,
whenever the news assessment still denies trading with no active cooldown
block while the volatility confirmation fails (ATR ratio above 1.5, e.g.
2.0), the decision is NO_TRADE with the HIGH_IMPACT_NEWS code. -/
theorem c4Blocks_eq : c4Blocks = [c4Block] := by
  with_unfolding_all decide

set_option maxHeartbeats 2000000 in
theorem c4_block_window_and_vol_gate :
    (∀ t : ℚ, 0 ≤ t →
      (((getBlockStatus {} c4Blocks (10 + t)).isBlocked = true) ↔ t ≤ 59))
    ∧ (∀ (cfg : Config) (tf : String) (inp : TFInput)
        (results : List (String × TFResult)) (a : Assessment),
        normalInputB inp = true →
        inp.newsAssessment = some a →
        a.canTrade = false →
        (∀ bs, a.blockStatus = some bs → bs.isBlocked = false) →
        checkVolatilityConfirmation inp.dfProc = false →
        (predictSingleTimeframe cfg tf inp results).decision = "NO_TRADE"
        ∧ (predictSingleTimeframe cfg tf inp results).rejectionReason
            = some "HIGH_IMPACT_NEWS") := by
  constructor
  · intro t ht
    rw [c4Blocks_eq, getBlockStatus_single_iff]
    simp only [c4Block]
    constructor
    · rintro ⟨-, -, h3, -⟩
      have h3x : (10 : ℚ) + t - 9 ≤ 60 := h3
      linarith
    · intro hle
      refine ⟨?_, ?_, ?_, trivial⟩
      · show (10 : ℚ) + t < 150
        linarith
      · show (10 : ℚ) + t - 0 ≤ 90
        linarith
      · show (10 : ℚ) + t - 9 ≤ 60
        linarith
  · intro cfg tf inp results a hn ha hct hbs hvol
    rw [predictSingle_eq_core cfg tf inp results hn]
    have hnews : coreNews cfg tf inp results
        = ("NO_TRADE", some "HIGH_IMPACT_NEWS", 0) := by
      unfold coreNews
      simp only [ha]
      exact newsGate_vol_blocked _ _ _ _ _ hct hbs hvol
    have hdrift : coreAfterDrift cfg tf inp results
        = ("NO_TRADE", some "HIGH_IMPACT_NEWS") := by
      unfold coreAfterDrift
      rw [hnews]
      simp [driftOverride]
    have hfinal : coreFinalDR cfg tf inp results
        = ("NO_TRADE", some "HIGH_IMPACT_NEWS") := by
      simp only [coreFinalDR]
      rw [hdrift]
      exact riskReject_noTrade _ _ _ rfl
    exact ⟨by rw [predictCore_decision, hfinal],
           by rw [predictCore_reason, hfinal]⟩

/-- The legacy-path assessment after the cooldown lapsed: trading denied,
no active block. -/
def c4Assessment : Assessment :=
  { canTrade := false, reason := some "HIGH_IMPACT_NEWS: FOMC decision on rate path",
    riskMultiplier := 0, blockStatus := some { isBlocked := false } }

/-- Normal-path input with the ATR-ratio-2.0 frame and the post-cooldown
assessment. -/
def c4VolInput : TFInput :=
  { modelAvailable := true, rawDataLen := some 500, indicatorsOk := true,
    dfProc := dfVol2, rawProbUp := 0.7, calibOut := some 0.7,
    newsAssessment := some c4Assessment }

/-- Claim C4 (amended), witness: blocked at +30 minutes; and with the
ATR-ratio-2.0 frame after the block lapsed, still NO_TRADE with the news
code. -/
theorem c4_witness :
    (getBlockStatus {} c4Blocks 40).isBlocked = true
    ∧ (predictSingleTimeframe defaultConfig "1h" c4VolInput []).decision = "NO_TRADE"
    ∧ (predictSingleTimeframe defaultConfig "1h" c4VolInput []).rejectionReason
        = some "HIGH_IMPACT_NEWS" := by
  have h1 := (c4_block_window_and_vol_gate.1 30 (by norm_num)).mpr (by norm_num)
  have he : (10 : ℚ) + 30 = 40 := by norm_num
  rw [he] at h1
  have h2 := c4_block_window_and_vol_gate.2 defaultConfig "1h" c4VolInput []
    c4Assessment (by decide) rfl rfl
    (fun bs hbs => by cases hbs; rfl)
    (by with_unfolding_all decide)
  exact ⟨h1, h2.1, h2.2⟩
